import Mathlib

/-!
# amr-wind / incflo: time advance and steady-state monitor

A shallow embedding of `src/src/advance/advance.cpp` (class `incflo_level`) and of
`incflo::set_scalar_bcs` in `src/src/boundary_conditions/incflo_set_scalar_bcs.cpp`.

* `amrex::Real` is modelled by `ℚ`: every statement is about exact arithmetic.
* A level carries one `BoxArray` (`grids[lev]`); every `MultiFab` of the level is
  defined on it, with its own number of components and of ghost cells. The
  source asserts `lev == 0`, so the per-level vectors are single fields here.
* `amrex::Print()` output is modelled by a list of structured messages.
* Code of the repository that is not part of the sources at hand (operator
  evaluators, projection, boundary fill, the CFL formula, ...) is collected in
  the structure `Collab`; every theorem quantifies over all collaborators.
-/

namespace AmrWind

/-! ## Index space -/

/-- Integer cell index `amrex::IntVect` in three dimensions. -/
structure IntVect where
  x : Int
  y : Int
  z : Int
  deriving DecidableEq, Repr

/-- Rectangular index region `amrex::Box`, both corners included. -/
structure Box where
  lo : IntVect
  hi : IntVect
  deriving DecidableEq, Repr

/-- Membership test `Box::contains`. -/
def Box.contains (b : Box) (c : IntVect) : Bool :=
  decide (b.lo.x ≤ c.x) && decide (c.x ≤ b.hi.x) &&
  decide (b.lo.y ≤ c.y) && decide (c.y ≤ b.hi.y) &&
  decide (b.lo.z ≤ c.z) && decide (c.z ≤ b.hi.z)

/-- Growth `amrex::grow(b, n)`: the box enlarged by `n` cells on every side. -/
def Box.grow (b : Box) (n : Nat) : Box :=
  { lo := ⟨b.lo.x - n, b.lo.y - n, b.lo.z - n⟩,
    hi := ⟨b.hi.x + n, b.hi.y + n, b.hi.z + n⟩ }

/-- The integers `lo, lo+1, ..., hi` in increasing order. -/
def rangeInt (lo hi : Int) : List Int :=
  (List.range (hi + 1 - lo).toNat).map fun (n : Nat) => lo + (n : Int)

/-- All cells of a box, `x` running fastest (the order of `AMREX_FOR_3D`). -/
def Box.cells (b : Box) : List IntVect :=
  (rangeInt b.lo.z b.hi.z).flatMap fun k =>
    (rangeInt b.lo.y b.hi.y).flatMap fun j =>
      (rangeInt b.lo.x b.hi.x).map fun i => (⟨i, j, k⟩ : IntVect)

/-- The valid boxes of a level, `amrex::BoxArray`. -/
abbrev BoxArray := List Box

/-- Whether cell `c` of fab number `i` lies in the `i`-th valid box grown by
`nghost`: the region on which a `MultiFab` operation called with `nghost` acts. -/
def BoxArray.covers (ba : BoxArray) (nghost : Nat) (i : Nat) (c : IntVect) : Bool :=
  match ba[i]? with
  | some b => (b.grow nghost).contains c
  | none => false

/-- All valid cells of a level, tagged with the number of the fab owning them. -/
def BoxArray.cells (ba : BoxArray) : List (Nat × IntVect) :=
  ba.enum.flatMap fun ib => ib.2.cells.map fun c => (ib.1, c)

/-! ## Fields -/

/-- Cell data of all fabs of a field: fab number, cell, component. -/
abbrev FabData := Nat → IntVect → Nat → ℚ

/-- A field `amrex::MultiFab` on the level's box array. -/
structure MultiFab where
  ncomp : Nat
  ngrow : Nat
  data : FabData

/-- Constructor `MultiFab(ba, dm, ncomp, ngrow)`. The storage of a fresh field
is unspecified in the source; it is zero here, and every use below overwrites
the components it reads. -/
def MultiFab.define (ncomp ngrow : Nat) : MultiFab :=
  { ncomp := ncomp, ngrow := ngrow, data := fun _ _ _ => 0 }

/-- Component window test: `dstcomp ≤ n < dstcomp + numcomp`. -/
def inComps (dstcomp numcomp n : Nat) : Bool :=
  decide (dstcomp ≤ n) && decide (n < dstcomp + numcomp)

/-- Copy `MultiFab::Copy(dst, src, srccomp, dstcomp, numcomp, nghost)`. -/
def MultiFab.Copy (ba : BoxArray) (dst src : MultiFab)
    (srccomp dstcomp numcomp nghost : Nat) : MultiFab :=
  { dst with data := fun i c n =>
      if ba.covers nghost i c && inComps dstcomp numcomp n then
        src.data i c (srccomp + (n - dstcomp))
      else dst.data i c n }

/-- Scaled add `MultiFab::Saxpy(dst, a, src, srccomp, dstcomp, numcomp, nghost)`:
`dst += a * src`. -/
def MultiFab.Saxpy (ba : BoxArray) (dst : MultiFab) (a : ℚ) (src : MultiFab)
    (srccomp dstcomp numcomp nghost : Nat) : MultiFab :=
  { dst with data := fun i c n =>
      if ba.covers nghost i c && inComps dstcomp numcomp n then
        dst.data i c n + a * src.data i c (srccomp + (n - dstcomp))
      else dst.data i c n }

/-- Linear combination
`MultiFab::LinComb(dst, a, x, xcomp, b, y, ycomp, dstcomp, numcomp, nghost)`:
`dst = a * x + b * y`. -/
def MultiFab.LinComb (ba : BoxArray) (dst : MultiFab) (a : ℚ) (x : MultiFab) (xcomp : Nat)
    (b : ℚ) (y : MultiFab) (ycomp : Nat) (dstcomp numcomp nghost : Nat) : MultiFab :=
  { dst with data := fun i c n =>
      if ba.covers nghost i c && inComps dstcomp numcomp n then
        a * x.data i c (xcomp + (n - dstcomp)) + b * y.data i c (ycomp + (n - dstcomp))
      else dst.data i c n }

/-- Product `MultiFab::Multiply(dst, src, srccomp, dstcomp, numcomp, nghost)`:
`dst *= src`. -/
def MultiFab.Multiply (ba : BoxArray) (dst src : MultiFab)
    (srccomp dstcomp numcomp nghost : Nat) : MultiFab :=
  { dst with data := fun i c n =>
      if ba.covers nghost i c && inComps dstcomp numcomp n then
        dst.data i c n * src.data i c (srccomp + (n - dstcomp))
      else dst.data i c n }

/-- Quotient `MultiFab::Divide(dst, src, srccomp, dstcomp, numcomp, nghost)`:
`dst /= src`. -/
def MultiFab.Divide (ba : BoxArray) (dst src : MultiFab)
    (srccomp dstcomp numcomp nghost : Nat) : MultiFab :=
  { dst with data := fun i c n =>
      if ba.covers nghost i c && inComps dstcomp numcomp n then
        dst.data i c n / src.data i c (srccomp + (n - dstcomp))
      else dst.data i c n }

/-! ## Norms -/

/-- Maximum of the absolute values of a cell function over the valid cells. -/
def normMax (ba : BoxArray) (f : Nat → IntVect → ℚ) : ℚ :=
  (ba.cells.map fun ic => |f ic.1 ic.2|).foldl max 0

/-- Sum of the absolute values of a cell function over the valid cells. -/
def normL1 (ba : BoxArray) (f : Nat → IntVect → ℚ) : ℚ :=
  (ba.cells.map fun ic => |f ic.1 ic.2|).sum

/-- Modelled from the spec: `incflo_norm0` is not part of the sources at hand;
the spec calls it the maximum norm of one component of a field (the global
maximum of the magnitude), taken over the cells of the domain. -/
def incflo_norm0 (ba : BoxArray) (mf : MultiFab) (comp : Nat) : ℚ :=
  normMax ba fun i c => mf.data i c comp

/-- Modelled from the spec: `incflo_norm1` is not part of the sources at hand;
the spec calls it the L1 norm of one component of a field, an all-worker sum
over the cells of the domain. -/
def incflo_norm1 (ba : BoxArray) (mf : MultiFab) (comp : Nat) : ℚ :=
  normL1 ba fun i c => mf.data i c comp

/-! ## Level state and collaborators -/

/-- Messages written through `amrex::Print()`. -/
inductive Msg where
  | newTimeStep
  | iteration (iter : Int) (dt : ℚ)
  | step (n : Int) (time newTime dt : ℚ)
  | afterPredictor
  | afterCorrector
  | maxVel (u v w p : ℚ)
  | maxDivu (d : ℚ)
  | cflWarning (dt_new fixed_dt : ℚ)
  | steadyCheck (tmp1 du tmp2 dv tmp3 dw tmp4 dp : ℚ)
  deriving DecidableEq, Repr

/-- The members of `incflo_level` read or written by `advance.cpp`. -/
structure incflo_level where
  grids : BoxArray
  domain : Box
  cellSize : ℚ × ℚ × ℚ
  vel : MultiFab
  vel_o : MultiFab
  p : MultiFab
  p_o : MultiFab
  ro : MultiFab
  ro_o : MultiFab
  mu : MultiFab
  gp : MultiFab
  gp0 : MultiFab
  divu : MultiFab
  cfl : ℚ
  fixed_dt : ℚ
  steady_state_tol : ℚ
  verbose : Int
  explicit_diffusion : Bool
  out : List Msg

/-- The parts of the repository called by `advance.cpp` whose code is not part
of the sources at hand. Field-producing routines return the data they write
into the field handed to them. -/
structure Collab where
  /-- Ghost values written by `incflo_set_velocity_bcs(lev, extrap_dir_bcs)`. -/
  velocity_ghosts : incflo_level → Int → FabData
  /-- Ghost values written by `fill_mf_bc(lev, mf)`. -/
  mf_ghosts : incflo_level → MultiFab → FabData
  incflo_set_scalar_bcs : incflo_level → incflo_level
  /-- External CFL formula `compute_new_dt`; returns the new `dt_new`. -/
  compute_new_dt : (umax vmax wmax romax mumax : ℚ) → (gradp0max : ℚ × ℚ × ℚ) →
    (dx : ℚ × ℚ × ℚ) → (cfl : ℚ) → (steady_state : Int) → (time stop_time : ℚ) →
    (dt_new : ℚ) → ℚ
  incflo_compute_ugradu_predictor : incflo_level → MultiFab → FabData
  incflo_compute_ugradu_corrector : incflo_level → MultiFab → FabData
  incflo_compute_divtau : incflo_level → MultiFab → FabData
  /-- Fortran kernel `add_forcing` on one box: new velocity data of that fab. -/
  add_forcing : Box → (IntVect → Nat → ℚ) → (IntVect → Nat → ℚ) → Box → ℚ × ℚ × ℚ → ℚ →
    IntVect → Nat → ℚ
  incflo_diffuse_velocity : incflo_level → ℚ → incflo_level
  incflo_apply_projection : incflo_level → ℚ → Bool → incflo_level
  incflo_compute_divu : incflo_level → incflo_level

/-- Modelled from the spec: `incflo_set_velocity_bcs` is not part of the sources
at hand; the spec says the boundary-condition module fills the ghost cells of
the field handed to it. Cells inside a valid box keep their value. -/
def incflo_set_velocity_bcs (ext : Collab) (st : incflo_level) (extrap_dir_bcs : Int) :
    incflo_level :=
  let filled : MultiFab :=
    { st.vel with data := fun i c n =>
        if st.grids.covers 0 i c then st.vel.data i c n
        else ext.velocity_ghosts st extrap_dir_bcs i c n }
  { st with vel := filled }

/-- Modelled from the spec: `fill_mf_bc` is not part of the sources at hand; the
source comment says it extrapolates boundary values, i.e. it writes ghost cells. -/
def fill_mf_bc (ext : Collab) (st : incflo_level) (mf : MultiFab) : MultiFab :=
  { mf with data := fun i c n =>
      if st.grids.covers 0 i c then mf.data i c n else ext.mf_ghosts st mf i c n }

/-- Integer value of a C++ boolean expression. -/
def b2i (b : Bool) : Int := if b then 1 else 0

/-! ## Steady-state monitor -/

/-- Local variables of `steady_state_reached` (advance.cpp 343-399). -/
structure SteadyLocals where
  delta_u : ℚ
  delta_v : ℚ
  delta_w : ℚ
  delta_p : ℚ
  du_n1 : ℚ
  dv_n1 : ℚ
  dw_n1 : ℚ
  dp_n1 : ℚ
  uo_n1 : ℚ
  vo_n1 : ℚ
  wo_n1 : ℚ
  po_n1 : ℚ
  tmp1 : ℚ
  tmp2 : ℚ
  tmp3 : ℚ
  tmp4 : ℚ
  condition1 : Int
  condition2 : Int

/-- The constant `local_tol = 1.0e-8` of `steady_state_reached`. -/
def local_tol : ℚ := 1 / 100000000

/-- Body of `steady_state_reached` up to the two stop conditions
(advance.cpp 348-399); `st` is the level after the boundary fill of line 346. -/
def steady_state_locals (st : incflo_level) (dt : ℚ) : SteadyLocals :=
  let temp_vel := MultiFab.LinComb st.grids (MultiFab.define 3 0) 1 st.vel 0 (-1) st.vel_o 0 0 3 0
  let tmp := MultiFab.LinComb st.grids (MultiFab.define 1 0) 1 st.p 0 (-1) st.p_o 0 0 1 0
  let delta_u := incflo_norm0 st.grids temp_vel 0
  let delta_v := incflo_norm0 st.grids temp_vel 1
  let delta_w := incflo_norm0 st.grids temp_vel 2
  let delta_p := incflo_norm0 st.grids tmp 0
  let tol := st.steady_state_tol
  let condition1 := b2i (decide (delta_u < tol * dt) && decide (delta_v < tol * dt) &&
    decide (delta_w < tol * dt))
  let du_n1 := incflo_norm1 st.grids temp_vel 0
  let dv_n1 := incflo_norm1 st.grids temp_vel 1
  let dw_n1 := incflo_norm1 st.grids temp_vel 2
  let dp_n1 := incflo_norm1 st.grids tmp 0
  let uo_n1 := incflo_norm1 st.grids st.vel_o 0
  let vo_n1 := incflo_norm1 st.grids st.vel_o 1
  let wo_n1 := incflo_norm1 st.grids st.vel_o 2
  let po_n1 := incflo_norm1 st.grids st.p_o 0
  let tmp1 := if uo_n1 < local_tol then 0 else du_n1 / uo_n1
  let tmp2 := if vo_n1 < local_tol then 0 else dv_n1 / vo_n1
  let tmp3 := if wo_n1 < local_tol then 0 else dw_n1 / wo_n1
  let tmp4 := if po_n1 < local_tol then 0 else dp_n1 / po_n1
  let condition2 := b2i (decide (tmp1 < tol) && decide (tmp2 < tol) && decide (tmp3 < tol))
  { delta_u := delta_u, delta_v := delta_v, delta_w := delta_w, delta_p := delta_p,
    du_n1 := du_n1, dv_n1 := dv_n1, dw_n1 := dw_n1, dp_n1 := dp_n1,
    uo_n1 := uo_n1, vo_n1 := vo_n1, wo_n1 := wo_n1, po_n1 := po_n1,
    tmp1 := tmp1, tmp2 := tmp2, tmp3 := tmp3, tmp4 := tmp4,
    condition1 := condition1, condition2 := condition2 }

/-- Method `incflo_level::steady_state_reached(lev, dt, iter)` (advance.cpp
343-417): the returned `int` and the level it leaves behind. -/
def steady_state_reached (ext : Collab) (st : incflo_level) (dt : ℚ) (iter : Int) :
    Int × incflo_level :=
  let st1 := incflo_set_velocity_bcs ext st 0
  let l := steady_state_locals st1 dt
  let st2 :=
    if st1.verbose ≠ 0 then
      { st1 with out := st1.out ++
          [Msg.steadyCheck l.tmp1 (l.delta_u / dt) l.tmp2 (l.delta_v / dt)
            l.tmp3 (l.delta_w / dt) l.tmp4 (l.delta_p / dt)] }
    else st1
  if iter = 1 then (0, st2)
  else (b2i (decide (l.condition1 ≠ 0) || decide (l.condition2 ≠ 0)), st2)

/-! ## Step-size controller -/

/-- The candidate `dt_new` of `incflo_compute_dt` (advance.cpp 112-142): the
field extrema are gathered and handed to the external CFL formula.
`ParallelDescriptor::ReduceRealMax` is the identity on a single process. -/
def cfl_dt_new (ext : Collab) (st : incflo_level) (time stop_time : ℚ) (steady_state : Int)
    (dt : ℚ) : ℚ :=
  let dt_new := dt
  let umax := incflo_norm0 st.grids st.vel 0
  let vmax := incflo_norm0 st.grids st.vel 1
  let wmax := incflo_norm0 st.grids st.vel 2
  let romax := incflo_norm0 st.grids st.ro 0
  let mumax := incflo_norm0 st.grids st.mu 0
  let gradp0max : ℚ × ℚ × ℚ :=
    (incflo_norm0 st.grids st.gp0 0, incflo_norm0 st.grids st.gp0 1,
      incflo_norm0 st.grids st.gp0 2)
  ext.compute_new_dt umax vmax wmax romax mumax gradp0max st.cellSize st.cfl steady_state
    time stop_time dt_new

/-- Method `incflo_level::incflo_compute_dt(lev, time, stop_time, steady_state, dt)`
(advance.cpp 108-158): the new value of the reference `dt` and the level with
its output. -/
def incflo_compute_dt (ext : Collab) (st : incflo_level) (time stop_time : ℚ)
    (steady_state : Int) (dt : ℚ) : ℚ × incflo_level :=
  let dt_new := cfl_dt_new ext st time stop_time steady_state dt
  if st.fixed_dt > 0 then
    let st1 :=
      if dt_new < st.fixed_dt then
        { st with out := st.out ++ [Msg.cflWarning dt_new st.fixed_dt] }
      else st
    (st.fixed_dt, st1)
  else (dt_new, st)

/-! ## Predictor and corrector -/

/-- Method `incflo_level::incflo_apply_forcing_terms(lev, dt, vel)` (advance.cpp
310-334): the Fortran kernel `add_forcing` runs on every box of the velocity;
one tile per box. -/
def incflo_apply_forcing_terms (ext : Collab) (st : incflo_level) (dt : ℚ) : incflo_level :=
  let forced : MultiFab :=
    { st.vel with data := fun i c n =>
        match st.grids[i]? with
        | some bx =>
          ext.add_forcing bx (st.vel.data i) (st.ro.data i) st.domain st.cellSize dt c n
        | none => st.vel.data i c n }
  { st with vel := forced }

/-- The loop `for n < 3: MultiFab::Multiply(vel, ro, 0, n, 1, vel.nGrow())`
(advance.cpp 211-212 and 291-292). -/
def velocities_to_momenta (ba : BoxArray) (vel ro : MultiFab) : MultiFab :=
  [0, 1, 2].foldl (fun v n => MultiFab.Multiply ba v ro 0 n 1 v.ngrow) vel

/-- The loop `for n < 3: MultiFab::Divide(vel, ro, 0, n, 1, vel.nGrow())`
(advance.cpp 219-220 and 299-300). -/
def momenta_to_velocities (ba : BoxArray) (vel ro : MultiFab) : MultiFab :=
  [0, 1, 2].foldl (fun v n => MultiFab.Divide ba v ro 0 n 1 v.ngrow) vel

/-- The momentum round trip shared by predictor and corrector (advance.cpp
210-220 and 290-300): velocities to momenta, add `-dt grad p` and
`-dt grad p0`, momenta back to velocities. -/
def momentum_round_trip (st : incflo_level) (dt : ℚ) : incflo_level :=
  let v1 := velocities_to_momenta st.grids st.vel st.ro
  let v2 := MultiFab.Saxpy st.grids v1 (-dt) st.gp 0 0 3 v1.ngrow
  let v3 := MultiFab.Saxpy st.grids v2 (-dt) st.gp0 0 0 3 v2.ngrow
  let v4 := momenta_to_velocities st.grids v3 st.ro
  { st with vel := v4 }

/-- First part of `incflo_apply_predictor` (advance.cpp 190-205): the explicit
terms are evaluated on `vel_o` and accumulated onto `vel`. Returns the level
just before the forcing terms, `conv_old` and `divtau_old`. -/
def predictor_explicit_terms (ext : Collab) (st : incflo_level)
    (conv_old divtau_old : MultiFab) (dt : ℚ) : incflo_level × MultiFab × MultiFab :=
  let conv_old1 : MultiFab :=
    { conv_old with data := ext.incflo_compute_ugradu_predictor st st.vel_o }
  let divtau_old1 : MultiFab :=
    { divtau_old with data := ext.incflo_compute_divtau st st.vel_o }
  let v1 := MultiFab.Saxpy st.grids st.vel dt conv_old1 0 0 3 0
  let v2 := MultiFab.Saxpy st.grids v1 dt divtau_old1 0 0 3 0
  ({ st with vel := v2 }, conv_old1, divtau_old1)

/-- Second part of predictor and corrector (advance.cpp 207-227 and 287-307):
forcing terms, momentum round trip, implicit diffusion when requested, and the
projection. -/
def forcing_to_projection (ext : Collab) (st : incflo_level) (dt : ℚ) (proj_2 : Bool) :
    incflo_level :=
  let st1 := incflo_apply_forcing_terms ext st dt
  let st2 := momentum_round_trip st1 dt
  let st3 := if !st2.explicit_diffusion then ext.incflo_diffuse_velocity st2 dt else st2
  ext.incflo_apply_projection st3 dt proj_2

/-- Method `incflo_level::incflo_apply_predictor(lev, conv_old, divtau_old, dt,
proj_2)` (advance.cpp 187-228). -/
def incflo_apply_predictor (ext : Collab) (st : incflo_level)
    (conv_old divtau_old : MultiFab) (dt : ℚ) (proj_2 : Bool) :
    incflo_level × MultiFab × MultiFab :=
  let r := predictor_explicit_terms ext st conv_old divtau_old dt
  (forcing_to_projection ext r.1 dt proj_2, r.2.1, r.2.2)

/-- First part of `incflo_apply_corrector` (advance.cpp 265-285): the explicit
terms are evaluated on the velocity held in `vel` and the trapezoidal blend is
assembled. Returns the level just before the forcing terms. -/
def corrector_explicit_terms (ext : Collab) (st : incflo_level)
    (conv_old divtau_old : MultiFab) (dt : ℚ) : incflo_level :=
  let conv : MultiFab :=
    { MultiFab.define 3 0 with data := ext.incflo_compute_ugradu_corrector st st.vel }
  let divtau : MultiFab :=
    { MultiFab.define 3 0 with data := ext.incflo_compute_divtau st st.vel }
  let v1 := MultiFab.LinComb st.grids st.vel 1 st.vel_o 0 (dt / 2) conv 0 0 3 0
  let v2 := MultiFab.Saxpy st.grids v1 (dt / 2) conv_old 0 0 3 0
  let v3 := MultiFab.Saxpy st.grids v2 (dt / 2) divtau 0 0 3 0
  let v4 := MultiFab.Saxpy st.grids v3 (dt / 2) divtau_old 0 0 3 0
  { st with vel := v4 }

/-- Method `incflo_level::incflo_apply_corrector(lev, conv_old, divtau_old, dt,
proj_2)` (advance.cpp 260-308). -/
def incflo_apply_corrector (ext : Collab) (st : incflo_level)
    (conv_old divtau_old : MultiFab) (dt : ℚ) (proj_2 : Bool) : incflo_level :=
  forcing_to_projection ext (corrector_explicit_terms ext st conv_old divtau_old dt) dt proj_2

/-- The backup of the field variables at the top of the time integration
(advance.cpp 53-56). -/
def backup_old_state (st : incflo_level) : incflo_level :=
  let p_o1 := MultiFab.Copy st.grids st.p_o st.p 0 0 st.p.ncomp st.p_o.ngrow
  let ro_o1 := MultiFab.Copy st.grids st.ro_o st.ro 0 0 st.ro.ncomp st.ro_o.ngrow
  let vel_o1 := MultiFab.Copy st.grids st.vel_o st.vel 0 0 st.vel.ncomp st.vel_o.ngrow
  { st with p_o := p_o1, ro_o := ro_o1, vel_o := vel_o1 }

/-! ## Outer loop -/

/-- Method `incflo_level::incflo_print_max_vel(lev)` (advance.cpp 442-449). -/
def incflo_print_max_vel (st : incflo_level) : incflo_level :=
  { st with out := st.out ++
      [Msg.maxVel (incflo_norm0 st.grids st.vel 0) (incflo_norm0 st.grids st.vel 1)
        (incflo_norm0 st.grids st.vel 2) (incflo_norm0 st.grids st.p 0)] }

/-- The diagnostic block printed after predictor and corrector when
`verbose > 0` (advance.cpp 70-76 and 83-89). -/
def print_step_info (ext : Collab) (st : incflo_level) (header : Msg) : incflo_level :=
  if st.verbose > 0 then
    let st1 := { st with out := st.out ++ [header] }
    let st2 := incflo_print_max_vel st1
    let st3 := ext.incflo_compute_divu st2
    { st3 with out := st3.out ++ [Msg.maxDivu (incflo_norm0 st3.grids st3.divu 0)] }
  else st

/-- The body of the do-while loop of `Advance` up to the exit check
(advance.cpp 39-89): compute `dt`, report, back up the old state, predictor,
corrector. Returns the level and the new `dt`. -/
def Advance_body (ext : Collab) (nstep steady_state : Int) (time stop_time : ℚ)
    (st : incflo_level) (dt : ℚ) (iter : Int) : incflo_level × ℚ :=
  let r := incflo_compute_dt ext st time stop_time steady_state dt
  let dt1 := r.1
  let st1 : incflo_level :=
    { r.2 with out := r.2.out ++
        [if steady_state ≠ 0 then Msg.iteration iter dt1
          else Msg.step (nstep + 1) time (time + dt1) dt1] }
  let st2 := backup_old_state st1
  let conv_old := MultiFab.define 3 0
  let divtau_old := MultiFab.define 3 0
  let proj_2 := true
  let pr := incflo_apply_predictor ext st2 conv_old divtau_old dt1 proj_2
  let st3 := print_step_info ext pr.1 Msg.afterPredictor
  let proj_2 := true
  let st4 := incflo_apply_corrector ext st3 pr.2.1 pr.2.2 dt1 proj_2
  let st5 := print_step_info ext st4 Msg.afterCorrector
  (st5, dt1)

/-- The exit check of the loop (advance.cpp 94-97): the new `keep_looping` and
the level left by the monitor. -/
def Advance_check (ext : Collab) (steady_state : Int) (st : incflo_level) (dt : ℚ)
    (iter : Int) : Int × incflo_level :=
  if steady_state ≠ 0 then
    let r := steady_state_reached ext st dt iter
    (b2i (r.1 == 0), r.2)
  else (0, st)

/-- One pass through the loop of `Advance` (advance.cpp 39-97): body and exit
check. Returns `keep_looping`, the level and `dt`. -/
def Advance_pass (ext : Collab) (nstep steady_state : Int) (time stop_time : ℚ)
    (st : incflo_level) (dt : ℚ) (iter : Int) : Int × incflo_level × ℚ :=
  let b := Advance_body ext nstep steady_state time stop_time st dt iter
  let k := Advance_check ext steady_state b.1 b.2 iter
  (k.1, k.2, b.2)

/-- The do-while loop of `Advance` (advance.cpp 37-101), run for at most `fuel`
passes: `none` when the passes are used up with `keep_looping` still set, else
the level, `dt` and the counter `iter` at loop exit. The C++ `int` counter is
an unbounded integer here. -/
def Advance_loop (ext : Collab) (nstep steady_state : Int) (time stop_time : ℚ) :
    Nat → incflo_level → ℚ → Int → Option (incflo_level × ℚ × Int)
  | 0, _, _, _ => none
  | fuel + 1, st, dt, iter =>
    let r := Advance_pass ext nstep steady_state time stop_time st dt iter
    if r.1 ≠ 0 then Advance_loop ext nstep steady_state time stop_time fuel r.2.1 r.2.2 (iter + 1)
    else some (r.2.1, r.2.2, iter + 1)

/-- The statements of `Advance` ahead of the loop (advance.cpp 24-31). -/
def Advance_entry (ext : Collab) (st : incflo_level) : incflo_level :=
  let st1 : incflo_level := { st with out := st.out ++ [Msg.newTimeStep] }
  let st2 : incflo_level := { st1 with mu := fill_mf_bc ext st1 st1.mu }
  let st3 := ext.incflo_set_scalar_bcs st2
  incflo_set_velocity_bcs ext st3 0

/-- Ways in which a run of `Advance` does not return. -/
inductive AdvanceError where
  | assertFailed
  | outOfFuel
  deriving DecidableEq, Repr

/-- Method `incflo_level::Advance(lev, nstep, steady_state, dt, prev_dt, time,
stop_time)` (advance.cpp 16-106). Returns the level and the new values of the
references `dt` and `prev_dt`. -/
def Advance (ext : Collab) (fuel : Nat) (st : incflo_level) (lev nstep steady_state : Int)
    (dt _prev_dt time stop_time : ℚ) : Except AdvanceError (incflo_level × ℚ × ℚ) :=
  if lev ≠ 0 then Except.error AdvanceError.assertFailed
  else
    match Advance_loop ext nstep steady_state time stop_time fuel (Advance_entry ext st) dt 1 with
    | none => Except.error AdvanceError.outOfFuel
    | some r => Except.ok (r.1, r.2.1, r.2.1)

/-- The level and `dt` after `k` complete passes through the loop, the first
pass running with counter `iter`, the next with `iter + 1`, and so on. -/
def Advance_after (ext : Collab) (nstep steady_state : Int) (time stop_time : ℚ)
    (st : incflo_level) (dt : ℚ) (iter : Int) : Nat → incflo_level × ℚ
  | 0 => (st, dt)
  | k + 1 =>
    let s := Advance_after ext nstep steady_state time stop_time st dt iter k
    let r := Advance_pass ext nstep steady_state time stop_time s.1 s.2 (iter + k)
    (r.2.1, r.2.2)

/-- The value `steady_state_reached` returns when called in pass number `k`
(counted from 1) of a loop entered with level `st` and step `dt`. -/
def Advance_monitor (ext : Collab) (nstep steady_state : Int) (time stop_time : ℚ)
    (st : incflo_level) (dt : ℚ) (k : Nat) : Int :=
  let s := Advance_after ext nstep steady_state time stop_time st dt 1 (k - 1)
  let b := Advance_body ext nstep steady_state time stop_time s.1 s.2 k
  (steady_state_reached ext b.1 b.2 k).1

/-! ## Scalar boundary conditions

A shallow embedding of `incflo::set_scalar_bcs`
(`src/src/boundary_conditions/incflo_set_scalar_bcs.cpp` 46-265). -/

/-- A single `amrex::FArrayBox`: its index box, ghost cells included, and its
data by cell and component. -/
structure FArrayBox where
  box : Box
  data : IntVect → Nat → ℚ

/-- The members of `incflo` read by `set_scalar_bcs`; their declarations are
not part of the sources at hand. The boundary-code arrays `bc_ilo[lev]` ...
`bc_khi[lev]` hold the type code in component 0 and the table index in
component 1; `minf`, `nsw`, `pinf`, `pout` are the codes of `bc_list`;
`get_bc_r`, `get_bc_t` are the getters of the tabulated values; `m_bc_r`,
`m_bc_t` are the member tables as the call finds them; `unset` is what a
pointer that was never assigned happens to point at. -/
structure BcData where
  bc_ilo : Int → IntVect → Nat → Int
  bc_ihi : Int → IntVect → Nat → Int
  bc_jlo : Int → IntVect → Nat → Int
  bc_jhi : Int → IntVect → Nat → Int
  bc_klo : Int → IntVect → Nat → Int
  bc_khi : Int → IntVect → Nat → Int
  minf : Int
  nsw : Int
  pinf : Int
  pout : Int
  get_bc_r : Int → ℚ
  get_bc_t : Int → ℚ
  m_bc_r : Int → ℚ
  m_bc_t : Int → ℚ
  unset : Int → ℚ

/-- Assignment `arr(i,j,k) = v` through an `Array4<Real>`: component 0 of one cell. -/
def Array4.assign (arr : IntVect → Nat → ℚ) (c : IntVect) (v : ℚ) : IntVect → Nat → ℚ :=
  fun x n => if x = c ∧ n = 0 then v else arr x n

/-- Loop `AMREX_FOR_3D(bx, i, j, k, body)`: the body runs on every cell of the
box, one cell after the other, `i` fastest. -/
def AMREX_FOR_3D (bx : Box) (body : IntVect → (IntVect → Nat → ℚ) → (IntVect → Nat → ℚ))
    (arr : IntVect → Nat → ℚ) : IntVect → Nat → ℚ :=
  bx.cells.foldl (fun a c => body c a) arr

/-- The loop `for (i = 1; i <= 6; ++i) m_bc[i] = get_bc(i)` (lines 142-146). -/
def refresh_bc_table (get_bc m_bc : Int → ℚ) : Int → ℚ :=
  fun i => if 1 ≤ i ∧ i ≤ 6 then get_bc i else m_bc i

/-- The pointer `p_bc_s` (lines 148-154): both branches test `comp == 0`, so
for any other `comp` the pointer is never assigned. -/
def select_p_bc_s (bc : BcData) (comp : Int) : Int → ℚ :=
  if comp = 0 then refresh_bc_table bc.get_bc_r bc.m_bc_r
  else if comp = 0 then refresh_bc_table bc.get_bc_t bc.m_bc_t
  else bc.unset

/-- The body shared by the six face loops (lines 160-170, 178-188, ...): `c` is
the cell `(i,j,k)`, `src` the cell read for a pressure face, `bcv` and `bct`
the two codes looked up for the cell. -/
def bc_cell (bc : BcData) (p_bc_s : Int → ℚ) (bcv bct : Int) (c src : IntVect)
    (arr : IntVect → Nat → ℚ) : IntVect → Nat → ℚ :=
  if bct = bc.pinf ∨ bct = bc.pout then Array4.assign arr c (arr src 0)
  else if bct = bc.minf ∧ bct = bc.nsw then Array4.assign arr c (p_bc_s bcv)
  else arr

/-- One of the six guarded face loops (lines 156-172, 174-190, ..., 246-262):
`if (nghost > 0) AMREX_FOR_3D(bx, i, j, k, ...)`. For the cell `c = (i,j,k)`
the codes are read from `tab` at `face c` and a pressure face copies the value
at `src c`. -/
def face_loop (bc : BcData) (p_bc_s : Int → ℚ) (nghost : Int) (bx : Box)
    (tab : IntVect → Nat → Int) (face src : IntVect → IntVect)
    (arr : IntVect → Nat → ℚ) : IntVect → Nat → ℚ :=
  if nghost > 0 then
    AMREX_FOR_3D bx
      (fun c a => bc_cell bc p_bc_s (tab (face c) 1) (tab (face c) 0) c (src c) a) arr
  else arr

/-- Method `incflo::set_scalar_bcs(time, lev, scal_fab, comp, domain)`
(lines 46-265): the array after the six face loops, low x, high x, low y,
high y, low z, high z in this order. The 2D boxes of lines 77-109 are built
and never used. -/
def set_scalar_bcs (bc : BcData) (_time : ℚ) (lev : Int) (scal_fab : FArrayBox) (comp : Int)
    (domain : Box) : FArrayBox :=
  let dom_lo := domain.lo
  let dom_hi := domain.hi
  let scal_lo := scal_fab.box.lo
  let scal_hi := scal_fab.box.hi
  let nlft := max 0 (dom_lo.x - scal_lo.x)
  let nbot := max 0 (dom_lo.y - scal_lo.y)
  let ndwn := max 0 (dom_lo.z - scal_lo.z)
  let nrgt := max 0 (scal_hi.x - dom_hi.x)
  let ntop := max 0 (scal_hi.y - dom_hi.y)
  let nup := max 0 (scal_hi.z - dom_hi.z)
  let bx_yz_lo_3D : Box := ⟨scal_lo, ⟨dom_lo.x - 1, scal_hi.y, scal_hi.z⟩⟩
  let bx_yz_hi_3D : Box := ⟨⟨dom_hi.x + 1, scal_lo.y, scal_lo.z⟩, scal_hi⟩
  let bx_xz_lo_3D : Box := ⟨scal_lo, ⟨scal_hi.x, dom_lo.y - 1, scal_hi.z⟩⟩
  let bx_xz_hi_3D : Box := ⟨⟨scal_lo.x, dom_hi.y + 1, scal_lo.z⟩, scal_hi⟩
  let bx_xy_lo_3D : Box := ⟨scal_lo, ⟨scal_hi.x, scal_hi.y, dom_lo.z - 1⟩⟩
  let bx_xy_hi_3D : Box := ⟨⟨scal_lo.x, scal_lo.y, dom_hi.z + 1⟩, scal_hi⟩
  let p_bc_s := select_p_bc_s bc comp
  let a0 := scal_fab.data
  let a1 := face_loop bc p_bc_s nlft bx_yz_lo_3D (bc.bc_ilo lev)
    (fun c => ⟨dom_lo.x - 1, c.y, c.z⟩) (fun c => ⟨dom_lo.x, c.y, c.z⟩) a0
  let a2 := face_loop bc p_bc_s nrgt bx_yz_hi_3D (bc.bc_ihi lev)
    (fun c => ⟨dom_hi.x + 1, c.y, c.z⟩) (fun c => ⟨dom_hi.x, c.y, c.z⟩) a1
  let a3 := face_loop bc p_bc_s nbot bx_xz_lo_3D (bc.bc_jlo lev)
    (fun c => ⟨c.x, dom_lo.y - 1, c.z⟩) (fun c => ⟨c.x, dom_lo.y, c.z⟩) a2
  let a4 := face_loop bc p_bc_s ntop bx_xz_hi_3D (bc.bc_jhi lev)
    (fun c => ⟨c.x, dom_hi.y + 1, c.z⟩) (fun c => ⟨c.x, dom_hi.y, c.z⟩) a3
  let a5 := face_loop bc p_bc_s ndwn bx_xy_lo_3D (bc.bc_klo lev)
    (fun c => ⟨c.x, c.y, dom_lo.z - 1⟩) (fun c => ⟨c.x, c.y, dom_lo.z⟩) a4
  let a6 := face_loop bc p_bc_s nup bx_xy_hi_3D (bc.bc_khi lev)
    (fun c => ⟨c.x, c.y, dom_hi.z + 1⟩) (fun c => ⟨c.x, c.y, dom_hi.z⟩) a5
  { scal_fab with data := a6 }

/-- The boundary data with other tables of boundary values. -/
def BcData.with_tables (bc : BcData) (r t m1 m2 u : Int → ℚ) : BcData :=
  { bc with get_bc_r := r, get_bc_t := t, m_bc_r := m1, m_bc_t := m2, unset := u }

/-! ## The convergence criteria in the words of the specification -/

/-- Maximum norm of component `n` of `vel - vel_o`. -/
def velDiffMax (st : incflo_level) (n : Nat) : ℚ :=
  normMax st.grids fun i c => st.vel.data i c n - st.vel_o.data i c n

/-- L1 norm of component `n` of `vel - vel_o`. -/
def velDiffL1 (st : incflo_level) (n : Nat) : ℚ :=
  normL1 st.grids fun i c => st.vel.data i c n - st.vel_o.data i c n

/-- L1 norm of component `n` of the old-time velocity `vel_o`. -/
def velOldL1 (st : incflo_level) (n : Nat) : ℚ :=
  normL1 st.grids fun i c => st.vel_o.data i c n

/-- Criterion 1 (absolute rate): the maximum norm of each of the three
components of the velocity difference is below `tol * dt`. -/
def Criterion1 (st : incflo_level) (dt : ℚ) : Prop :=
  velDiffMax st 0 < st.steady_state_tol * dt ∧
  velDiffMax st 1 < st.steady_state_tol * dt ∧
  velDiffMax st 2 < st.steady_state_tol * dt

/-- The velocity L1 ratio of component `n`: zero when the old-time L1 norm is
below `1e-8`, else the L1 norm of the difference over that of the old field. -/
def velRatio (st : incflo_level) (n : Nat) : ℚ :=
  if velOldL1 st n < 1 / 100000000 then 0 else velDiffL1 st n / velOldL1 st n

/-- Criterion 2 (relative magnitude): each of the three velocity L1 ratios is
below `tol`. -/
def Criterion2 (st : incflo_level) : Prop :=
  velRatio st 0 < st.steady_state_tol ∧
  velRatio st 1 < st.steady_state_tol ∧
  velRatio st 2 < st.steady_state_tol

instance (st : incflo_level) (dt : ℚ) : Decidable (Criterion1 st dt) :=
  inferInstanceAs (Decidable (_ ∧ _ ∧ _))

instance (st : incflo_level) : Decidable (Criterion2 st) :=
  inferInstanceAs (Decidable (_ ∧ _ ∧ _))

/-! ## A small concrete level -/

/-- A field with `ncomp` components holding `v + n` in component `n` of every cell. -/
def exField (ncomp ngrow : Nat) (v : ℚ) : MultiFab :=
  { ncomp := ncomp, ngrow := ngrow, data := fun _ _ n => v + n }

/-- A two-cell level with one ghost layer on the velocity. -/
def exLevel : incflo_level :=
  { grids := [⟨⟨0, 0, 0⟩, ⟨1, 0, 0⟩⟩],
    domain := ⟨⟨0, 0, 0⟩, ⟨1, 0, 0⟩⟩,
    cellSize := (1, 1, 1),
    vel := exField 3 1 2,
    vel_o := exField 3 1 1,
    p := exField 1 1 5,
    p_o := exField 1 1 4,
    ro := exField 1 1 2,
    ro_o := exField 1 1 2,
    mu := exField 1 1 1,
    gp := exField 3 1 3,
    gp0 := exField 3 1 1,
    divu := exField 1 0 0,
    cfl := 1 / 2,
    fixed_dt := 0,
    steady_state_tol := 1 / 10,
    verbose := 0,
    explicit_diffusion := true,
    out := [] }

/-- Collaborators for the example: ghost cells are zeroed, the explicit
operators return the field they are given, the solvers leave the level as is
and the CFL formula returns one quarter. -/
def exCollab : Collab :=
  { velocity_ghosts := fun _ _ _ _ _ => 0,
    mf_ghosts := fun _ _ _ _ _ => 0,
    incflo_set_scalar_bcs := fun st => st,
    compute_new_dt := fun _ _ _ _ _ _ _ _ _ _ _ _ => 1 / 4,
    incflo_compute_ugradu_predictor := fun _ v => v.data,
    incflo_compute_ugradu_corrector := fun _ v => v.data,
    incflo_compute_divtau := fun _ v => v.data,
    add_forcing := fun _ v _ _ _ _ => v,
    incflo_diffuse_velocity := fun st _ => st,
    incflo_apply_projection := fun st _ _ => st,
    incflo_compute_divu := fun st => st }

/-- The example level at rest: velocity and snapshot identically zero. -/
def exRest : incflo_level :=
  { exLevel with vel := MultiFab.define 3 1, vel_o := MultiFab.define 3 1 }

/-- The example level started from a zero snapshot with a nonzero velocity. -/
def exColdStart : incflo_level := { exLevel with vel_o := MultiFab.define 3 1 }

/-- The example level with a generous steady-state tolerance. -/
def exSteady : incflo_level := { exLevel with steady_state_tol := 100 }

/-- First pass of the steady-state example run. -/
def exPass1 : Int × incflo_level × ℚ := Advance_pass exCollab 0 1 0 1 exSteady (1 / 2) 1

/-- Second pass of the steady-state example run. -/
def exPass2 : Int × incflo_level × ℚ :=
  Advance_pass exCollab 0 1 0 1 exPass1.2.1 exPass1.2.2 (1 + 1)

/-- The example level with a negative density in every cell. -/
def exNegDensity : incflo_level := { exLevel with ro := exField 1 1 (-2) }

/-- Boundary data for the example: every low-x face cell is a mass inflow
(code 20) with table index 3, every high-x face cell a no-slip wall (code 100)
with table index 4, the other faces are pressure outflows (code 11); the
tabulated value at index `i` is `7 + i`. -/
def exBc : BcData :=
  { bc_ilo := fun _ _ n => if n = 0 then 20 else 3,
    bc_ihi := fun _ _ n => if n = 0 then 100 else 4,
    bc_jlo := fun _ _ n => if n = 0 then 11 else 0,
    bc_jhi := fun _ _ n => if n = 0 then 11 else 0,
    bc_klo := fun _ _ n => if n = 0 then 11 else 0,
    bc_khi := fun _ _ n => if n = 0 then 11 else 0,
    minf := 20,
    nsw := 100,
    pinf := 10,
    pout := 11,
    get_bc_r := fun i => 7 + i,
    get_bc_t := fun i => 70 + i,
    m_bc_r := fun _ => 0,
    m_bc_t := fun _ => 0,
    unset := fun _ => 0 }

/-- The example boundary data with the low-x face turned into a pressure inflow. -/
def exBcPressure : BcData := { exBc with bc_ilo := fun _ _ n => if n = 0 then 10 else 3 }

/-- The domain of the example: the two cells `(0,0,0)` and `(1,0,0)`. -/
def exDomain : Box := ⟨⟨0, 0, 0⟩, ⟨1, 0, 0⟩⟩

/-- A scalar on the example domain with one ghost cell on either side in `x`;
the cell `(i,j,k)` holds `5 + i`. -/
def exScal : FArrayBox :=
  { box := ⟨⟨-1, 0, 0⟩, ⟨2, 0, 0⟩⟩, data := fun c _ => 5 + c.x }

/-! ## Lemmas on the index space and the norms -/

theorem mem_rangeInt_bounds {lo hi x : Int} (h : x ∈ rangeInt lo hi) : lo ≤ x ∧ x ≤ hi := by
  unfold rangeInt at h
  simp only [List.mem_map, List.mem_range] at h
  obtain ⟨n, hn, rfl⟩ := h
  omega

theorem Box.contains_of_mem_cells {b : Box} {c : IntVect} (h : c ∈ b.cells) :
    b.contains c = true := by
  unfold Box.cells at h
  simp only [List.mem_flatMap, List.mem_map] at h
  obtain ⟨k, hk, j, hj, i, hi, rfl⟩ := h
  have h1 := mem_rangeInt_bounds hk
  have h2 := mem_rangeInt_bounds hj
  have h3 := mem_rangeInt_bounds hi
  simp [Box.contains, h1, h2, h3]

theorem Box.grow_zero (b : Box) : b.grow 0 = b := by
  cases b with
  | mk lo hi =>
    cases lo
    cases hi
    simp [Box.grow]

theorem BoxArray.covers_of_mem_cells {ba : BoxArray} {ic : Nat × IntVect}
    (h : ic ∈ ba.cells) : ba.covers 0 ic.1 ic.2 = true := by
  unfold BoxArray.cells at h
  simp only [List.mem_flatMap, List.mem_map] at h
  obtain ⟨⟨i, b⟩, hib, c, hc, rfl⟩ := h
  have hget : ba[i]? = some b := by
    obtain ⟨hlt, hb⟩ := List.mem_enum hib
    rw [hb]
    exact List.getElem?_eq_getElem hlt
  simp [BoxArray.covers, hget, Box.grow_zero, Box.contains_of_mem_cells hc]

/-- The maximum norm only reads the valid cells. -/
theorem normMax_congr {ba : BoxArray} {f g : Nat → IntVect → ℚ}
    (h : ∀ i c, ba.covers 0 i c = true → f i c = g i c) : normMax ba f = normMax ba g := by
  unfold normMax
  congr 1
  apply List.map_congr_left
  intro ic hic
  rw [h ic.1 ic.2 (BoxArray.covers_of_mem_cells hic)]

/-- The L1 norm only reads the valid cells. -/
theorem normL1_congr {ba : BoxArray} {f g : Nat → IntVect → ℚ}
    (h : ∀ i c, ba.covers 0 i c = true → f i c = g i c) : normL1 ba f = normL1 ba g := by
  unfold normL1
  congr 1
  apply List.map_congr_left
  intro ic hic
  rw [h ic.1 ic.2 (BoxArray.covers_of_mem_cells hic)]

/-! ## Lemmas on the steady-state monitor -/

/-- On a valid cell the temporary `temp_vel` of `steady_state_reached` holds
the difference of the entry velocity and the snapshot. -/
theorem temp_vel_data (ext : Collab) (st : incflo_level) (i : Nat) (c : IntVect) (n : Nat)
    (hn : n < 3) (hc : st.grids.covers 0 i c = true) :
    (MultiFab.LinComb st.grids (MultiFab.define 3 0) 1 (incflo_set_velocity_bcs ext st 0).vel 0
      (-1) st.vel_o 0 0 3 0).data i c n = st.vel.data i c n - st.vel_o.data i c n := by
  simp [MultiFab.LinComb, incflo_set_velocity_bcs, inComps, hc, hn]
  ring

theorem temp_vel_norm0 (ext : Collab) (st : incflo_level) (n : Nat) (hn : n < 3) :
    incflo_norm0 st.grids (MultiFab.LinComb st.grids (MultiFab.define 3 0) 1
      (incflo_set_velocity_bcs ext st 0).vel 0 (-1) st.vel_o 0 0 3 0) n = velDiffMax st n := by
  unfold incflo_norm0 velDiffMax
  exact normMax_congr fun i c hc => temp_vel_data ext st i c n hn hc

theorem temp_vel_norm1 (ext : Collab) (st : incflo_level) (n : Nat) (hn : n < 3) :
    incflo_norm1 st.grids (MultiFab.LinComb st.grids (MultiFab.define 3 0) 1
      (incflo_set_velocity_bcs ext st 0).vel 0 (-1) st.vel_o 0 0 3 0) n = velDiffL1 st n := by
  unfold incflo_norm1 velDiffL1
  exact normL1_congr fun i c hc => temp_vel_data ext st i c n hn hc

/-- The two stop conditions of `steady_state_reached` in terms of the entry state. -/
theorem steady_conditions (ext : Collab) (st : incflo_level) (dt : ℚ) :
    ((steady_state_locals (incflo_set_velocity_bcs ext st 0) dt).condition1 =
        b2i (decide (Criterion1 st dt))) ∧
    ((steady_state_locals (incflo_set_velocity_bcs ext st 0) dt).condition2 =
        b2i (decide (Criterion2 st))) := by
  have g : (incflo_set_velocity_bcs ext st 0).grids = st.grids := rfl
  have o : (incflo_set_velocity_bcs ext st 0).vel_o = st.vel_o := rfl
  have t : (incflo_set_velocity_bcs ext st 0).steady_state_tol = st.steady_state_tol := rfl
  constructor
  · simp only [steady_state_locals, g, o, t]
    rw [temp_vel_norm0 ext st 0 (by decide), temp_vel_norm0 ext st 1 (by decide),
      temp_vel_norm0 ext st 2 (by decide)]
    simp [Criterion1, Bool.and_assoc]
  · simp only [steady_state_locals, g, o, t]
    rw [temp_vel_norm1 ext st 0 (by decide), temp_vel_norm1 ext st 1 (by decide),
      temp_vel_norm1 ext st 2 (by decide)]
    simp [Criterion2, velRatio, velOldL1, incflo_norm1, local_tol, Bool.and_assoc]

theorem b2i_ne_zero (b : Bool) : decide (b2i b ≠ 0) = b := by
  cases b <;> simp [b2i]

/-- The value returned by `steady_state_reached`, in terms of the entry state. -/
theorem steady_state_reached_val (ext : Collab) (st : incflo_level) (dt : ℚ) (iter : Int) :
    (steady_state_reached ext st dt iter).1 =
      if iter = 1 then 0 else b2i (decide (Criterion1 st dt) || decide (Criterion2 st)) := by
  obtain ⟨h1, h2⟩ := steady_conditions ext st dt
  unfold steady_state_reached
  by_cases hi : iter = 1
  · simp [hi]
  · simp only [hi, if_false, h1, h2, b2i_ne_zero]

/-! ## Lemmas on the field operations -/

theorem Box.contains_grow {b : Box} {c : IntVect} (k : Nat) (h : b.contains c = true) :
    (b.grow k).contains c = true := by
  simp only [Box.contains, Box.grow, Bool.and_eq_true, decide_eq_true_eq] at h ⊢
  omega

/-- A valid cell lies in every grown region. -/
theorem BoxArray.covers_grow {ba : BoxArray} {i : Nat} {c : IntVect} (k : Nat)
    (h : ba.covers 0 i c = true) : ba.covers k i c = true := by
  unfold BoxArray.covers at h ⊢
  cases hb : ba[i]? with
  | none => simp [hb] at h
  | some b =>
    simp only [hb] at h ⊢
    rw [Box.grow_zero] at h
    exact Box.contains_grow k h

/-- The backup copies the live velocity into the snapshot on every cell of the
snapshot. -/
theorem backup_vel_o_data (st : incflo_level) (i : Nat) (c : IntVect) (n : Nat)
    (hn : n < st.vel.ncomp) (hc : st.grids.covers st.vel_o.ngrow i c = true) :
    (backup_old_state st).vel_o.data i c n = st.vel.data i c n := by
  simp [backup_old_state, MultiFab.Copy, inComps, hc, hn]

/-! ## Lemmas on the outer loop -/

/-- Passes after the first one are the passes of a loop entered one step later. -/
theorem Advance_after_shift (ext : Collab) (nstep steady_state : Int) (time stop_time : ℚ)
    (st : incflo_level) (dt : ℚ) (iter : Int) (k : Nat) :
    Advance_after ext nstep steady_state time stop_time st dt iter (k + 1) =
      Advance_after ext nstep steady_state time stop_time
        (Advance_pass ext nstep steady_state time stop_time st dt iter).2.1
        (Advance_pass ext nstep steady_state time stop_time st dt iter).2.2 (iter + 1) k := by
  induction k with
  | zero => simp [Advance_after]
  | succ k ih =>
    rw [Advance_after, ih]
    conv_rhs => rw [Advance_after]
    have e : iter + ((k + 1 : Nat) : Int) = iter + 1 + (k : Int) := by push_cast; ring
    rw [e]

/-- A loop that exits has made `m + 1` passes: pass `m` cleared `keep_looping`
and every pass before it left it set. -/
theorem Advance_loop_exit (ext : Collab) (nstep steady_state : Int) (time stop_time : ℚ) :
    ∀ (fuel : Nat) (st : incflo_level) (dt : ℚ) (iter : Int) (r : incflo_level × ℚ × Int),
      Advance_loop ext nstep steady_state time stop_time fuel st dt iter = some r →
      ∃ m : Nat, m < fuel ∧
        r = ((Advance_after ext nstep steady_state time stop_time st dt iter (m + 1)).1,
          (Advance_after ext nstep steady_state time stop_time st dt iter (m + 1)).2,
          iter + ((m + 1 : Nat) : Int)) ∧
        (Advance_pass ext nstep steady_state time stop_time
          (Advance_after ext nstep steady_state time stop_time st dt iter m).1
          (Advance_after ext nstep steady_state time stop_time st dt iter m).2
          (iter + (m : Int))).1 = 0 ∧
        ∀ k : Nat, k < m →
          (Advance_pass ext nstep steady_state time stop_time
            (Advance_after ext nstep steady_state time stop_time st dt iter k).1
            (Advance_after ext nstep steady_state time stop_time st dt iter k).2
            (iter + (k : Int))).1 ≠ 0 := by
  intro fuel
  induction fuel with
  | zero => intro st dt iter r h; simp [Advance_loop] at h
  | succ fuel ih =>
    intro st dt iter r h
    rw [Advance_loop] at h
    by_cases hk : (Advance_pass ext nstep steady_state time stop_time st dt iter).1 ≠ 0
    · simp only [hk, ne_eq, not_false_eq_true, if_true] at h
      obtain ⟨m, hm, hr, hlast, hbefore⟩ := ih _ _ _ _ h
      refine ⟨m + 1, by omega, ?_, ?_, ?_⟩
      · rw [Advance_after_shift, hr]
        have e : iter + 1 + ((m + 1 : Nat) : Int) = iter + ((m + 1 + 1 : Nat) : Int) := by
          push_cast; ring
        rw [e]
      · rw [Advance_after_shift]
        have e : iter + ((m + 1 : Nat) : Int) = iter + 1 + (m : Int) := by push_cast; ring
        rw [e]
        exact hlast
      · intro k hkm
        cases k with
        | zero => simpa [Advance_after] using hk
        | succ j =>
          rw [Advance_after_shift]
          have e : iter + ((j + 1 : Nat) : Int) = iter + 1 + (j : Int) := by push_cast; ring
          rw [e]
          exact hbefore j (by omega)
    · have hk0 : (Advance_pass ext nstep steady_state time stop_time st dt iter).1 = 0 := by
        simpa using hk
      simp only [hk0, ne_eq, not_true_eq_false, if_false, Option.some.injEq] at h
      refine ⟨0, by omega, ?_, ?_, ?_⟩
      · rw [← h]
        simp [Advance_after]
      · simpa [Advance_after] using hk0
      · intro k hk'
        omega

/-- In steady-state mode `keep_looping` is the negation of the monitor's answer. -/
theorem Advance_pass_keep (ext : Collab) (nstep steady_state : Int) (time stop_time : ℚ)
    (st : incflo_level) (dt : ℚ) (iter : Int) (hs : steady_state ≠ 0) :
    (Advance_pass ext nstep steady_state time stop_time st dt iter).1 =
      b2i ((steady_state_reached ext
        (Advance_body ext nstep steady_state time stop_time st dt iter).1
        (Advance_body ext nstep steady_state time stop_time st dt iter).2 iter).1 == 0) := by
  simp [Advance_pass, Advance_check, hs]

/-- In non-steady mode `keep_looping` is cleared and the level is the one the
body leaves. -/
theorem Advance_pass_unsteady (ext : Collab) (nstep : Int) (time stop_time : ℚ)
    (st : incflo_level) (dt : ℚ) (iter : Int) :
    Advance_pass ext nstep 0 time stop_time st dt iter =
      (0, (Advance_body ext nstep 0 time stop_time st dt iter).1,
        (Advance_body ext nstep 0 time stop_time st dt iter).2) := by
  simp [Advance_pass, Advance_check]

/-- In steady-state mode the first pass always sets `keep_looping`: the
monitor is called with `iter == 1`. -/
theorem Advance_pass_first (ext : Collab) (nstep steady_state : Int) (time stop_time : ℚ)
    (st : incflo_level) (dt : ℚ) (hs : steady_state ≠ 0) :
    (Advance_pass ext nstep steady_state time stop_time st dt 1).1 = 1 := by
  rw [Advance_pass_keep _ _ _ _ _ _ _ _ hs, steady_state_reached_val, if_pos rfl]
  rfl

/-- The steady-state example run leaves the loop after its second pass. -/
theorem exSteady_run :
    Advance_loop exCollab 0 1 0 1 2 exSteady (1 / 2) 1 =
      some (exPass2.2.1, exPass2.2.2, 1 + 1 + 1) := by
  have k1 : (Advance_pass exCollab 0 1 0 1 exSteady (1 / 2) 1).1 = 1 :=
    Advance_pass_first exCollab 0 1 0 1 exSteady (1 / 2) (by decide)
  have k2 : (Advance_pass exCollab 0 1 0 1
      (Advance_pass exCollab 0 1 0 1 exSteady (1 / 2) 1).2.1
      (Advance_pass exCollab 0 1 0 1 exSteady (1 / 2) 1).2.2 (1 + 1)).1 = 0 := by decide!
  rw [Advance_loop, if_pos (by rw [k1]; decide), Advance_loop, if_neg (by rw [k2]; decide)]
  simp only [exPass2, exPass1]

/-! ## Lemmas on the scalar boundary conditions -/

/-- With distinct codes for mass inflow and no-slip wall the second branch of
the face loops is dead: only a pressure code changes the array. -/
theorem bc_cell_of_ne (bc : BcData) (h : bc.minf ≠ bc.nsw) (p_bc_s : Int → ℚ) (bcv bct : Int)
    (c src : IntVect) (arr : IntVect → Nat → ℚ) :
    bc_cell bc p_bc_s bcv bct c src arr =
      if bct = bc.pinf ∨ bct = bc.pout then Array4.assign arr c (arr src 0) else arr := by
  unfold bc_cell
  have hdead : ¬ (bct = bc.minf ∧ bct = bc.nsw) := fun hh => h (hh.1 ▸ hh.2)
  rw [if_neg hdead]

/-- A face-loop body leaves every entry other than component 0 of its own cell
as it was. -/
theorem bc_cell_other (bc : BcData) (p_bc_s : Int → ℚ) (bcv bct : Int) (c src : IntVect)
    (arr : IntVect → Nat → ℚ) (x : IntVect) (n : Nat) (h : x ≠ c ∨ n ≠ 0) :
    bc_cell bc p_bc_s bcv bct c src arr x n = arr x n := by
  have hne : ¬ (x = c ∧ n = 0) := by
    rintro ⟨h1, h2⟩
    cases h with
    | inl hx => exact hx h1
    | inr hn => exact hn h2
  unfold bc_cell
  split_ifs <;> simp [Array4.assign, hne]

/-- A fold whose step, on every cell of the list, keeps the entry `(x, n)`
leaves that entry as it was. -/
theorem foldl_untouched (body : IntVect → (IntVect → Nat → ℚ) → (IntVect → Nat → ℚ))
    (x : IntVect) (n : Nat) :
    ∀ (l : List IntVect) (arr : IntVect → Nat → ℚ),
      (∀ c ∈ l, ∀ a, body c a x n = a x n) →
      l.foldl (fun a c => body c a) arr x n = arr x n
  | [], _, _ => rfl
  | d :: t, arr, h => by
    rw [List.foldl_cons,
      foldl_untouched body x n t _ (fun c hc a => h c (List.mem_cons_of_mem d hc) a)]
    exact h d (List.mem_cons_self d t) arr

/-- A face loop leaves the entry `(x, n)` as it was when `x` is not a cell of
its box or `n` is not component 0. -/
theorem face_loop_untouched (bc : BcData) (p_bc_s : Int → ℚ) (nghost : Int) (bx : Box)
    (tab : IntVect → Nat → Int) (face src : IntVect → IntVect) (arr : IntVect → Nat → ℚ)
    (x : IntVect) (n : Nat) (h : bx.contains x = false ∨ n ≠ 0) :
    face_loop bc p_bc_s nghost bx tab face src arr x n = arr x n := by
  unfold face_loop
  split_ifs
  · unfold AMREX_FOR_3D
    apply foldl_untouched
    intro c hc a
    apply bc_cell_other
    cases h with
    | inl hout =>
      left
      intro hxc
      rw [hxc, Box.contains_of_mem_cells hc] at hout
      exact absurd hout (by decide)
    | inr hn => exact Or.inr hn
  · rfl

/-- The tabulated boundary values never reach the array when the codes of mass
inflow and no-slip wall differ: the result is the same for every table and
every `comp`. -/
theorem set_scalar_bcs_table_unused (bc : BcData) (h : bc.minf ≠ bc.nsw) (time : ℚ) (lev : Int)
    (scal_fab : FArrayBox) (comp comp1 : Int) (domain : Box) (r t m1 m2 u : Int → ℚ) :
    set_scalar_bcs (bc.with_tables r t m1 m2 u) time lev scal_fab comp1 domain =
      set_scalar_bcs bc time lev scal_fab comp domain := by
  have h1 : (bc.with_tables r t m1 m2 u).minf ≠ (bc.with_tables r t m1 m2 u).nsw := h
  simp only [set_scalar_bcs, face_loop, bc_cell_of_ne bc h, bc_cell_of_ne _ h1]
  rfl

/-- Cells inside the domain, and every component other than 0, are left
unchanged by `set_scalar_bcs`. -/
theorem set_scalar_bcs_interior (bc : BcData) (time : ℚ) (lev : Int) (scal_fab : FArrayBox)
    (comp : Int) (domain : Box) (x : IntVect) (n : Nat)
    (hx : domain.contains x = true ∨ n ≠ 0) :
    (set_scalar_bcs bc time lev scal_fab comp domain).data x n = scal_fab.data x n := by
  have side : ∀ (lo hi : IntVect),
      (domain.contains x = true →
        x.x < lo.x ∨ hi.x < x.x ∨ x.y < lo.y ∨ hi.y < x.y ∨ x.z < lo.z ∨ hi.z < x.z) →
      ((⟨lo, hi⟩ : Box).contains x = false ∨ n ≠ 0) := by
    intro lo hi hcase
    cases hx with
    | inr hn => exact Or.inr hn
    | inl hin =>
      left
      have := hcase hin
      by_contra hcon
      have hc : (⟨lo, hi⟩ : Box).contains x = true := by simpa using hcon
      simp only [Box.contains, Bool.and_eq_true, decide_eq_true_eq] at hc
      omega
  have dom : domain.contains x = true →
      domain.lo.x ≤ x.x ∧ x.x ≤ domain.hi.x ∧ domain.lo.y ≤ x.y ∧ x.y ≤ domain.hi.y ∧
        domain.lo.z ≤ x.z ∧ x.z ≤ domain.hi.z := by
    intro hin
    simp only [Box.contains, Bool.and_eq_true, decide_eq_true_eq] at hin
    omega
  simp only [set_scalar_bcs]
  rw [face_loop_untouched _ _ _ _ _ _ _ _ _ _ (side _ _ (fun hin => by have := dom hin; dsimp only; omega)),
    face_loop_untouched _ _ _ _ _ _ _ _ _ _ (side _ _ (fun hin => by have := dom hin; dsimp only; omega)),
    face_loop_untouched _ _ _ _ _ _ _ _ _ _ (side _ _ (fun hin => by have := dom hin; dsimp only; omega)),
    face_loop_untouched _ _ _ _ _ _ _ _ _ _ (side _ _ (fun hin => by have := dom hin; dsimp only; omega)),
    face_loop_untouched _ _ _ _ _ _ _ _ _ _ (side _ _ (fun hin => by have := dom hin; dsimp only; omega)),
    face_loop_untouched _ _ _ _ _ _ _ _ _ _ (side _ _ (fun hin => by have := dom hin; dsimp only; omega))]

theorem mem_rangeInt_of_bounds {lo hi x : Int} (h1 : lo ≤ x) (h2 : x ≤ hi) :
    x ∈ rangeInt lo hi := by
  unfold rangeInt
  simp only [List.mem_map, List.mem_range]
  exact ⟨(x - lo).toNat, by omega, by omega⟩

theorem Box.mem_cells_of_contains {b : Box} {c : IntVect} (h : b.contains c = true) :
    c ∈ b.cells := by
  simp only [Box.contains, Bool.and_eq_true, decide_eq_true_eq] at h
  unfold Box.cells
  simp only [List.mem_flatMap, List.mem_map]
  exact ⟨c.z, mem_rangeInt_of_bounds (by omega) (by omega), c.y,
    mem_rangeInt_of_bounds (by omega) (by omega), c.x,
    mem_rangeInt_of_bounds (by omega) (by omega), rfl⟩

/-- In a fold over cells of a region whose pressure faces read from outside the
region, a cell of the list with a pressure code ends with the value its source
cell had before the fold. -/
theorem foldl_pressure (bc : BcData) (p_bc_s : Int → ℚ) (tab : IntVect → Nat → Int)
    (face src : IntVect → IntVect) (arr0 : IntVect → Nat → ℚ) (inbox : IntVect → Prop)
    (hsrc : ∀ c, inbox c → ¬ inbox (src c)) :
    ∀ (l : List IntVect) (arr : IntVect → Nat → ℚ),
      (∀ c ∈ l, inbox c) →
      (∀ y, ¬ inbox y → arr y 0 = arr0 y 0) →
      ∀ x ∈ l, (tab (face x) 0 = bc.pinf ∨ tab (face x) 0 = bc.pout) →
        l.foldl (fun a c => bc_cell bc p_bc_s (tab (face c) 1) (tab (face c) 0) c (src c) a)
          arr x 0 = arr0 (src x) 0
  | [], _, _, _, x, hx, _ => absurd hx (List.not_mem_nil x)
  | d :: t, arr, hl, hinv, x, hx, hcode => by
    have hd : inbox d := hl d (List.mem_cons_self d t)
    have hinv1 : ∀ y, ¬ inbox y →
        bc_cell bc p_bc_s (tab (face d) 1) (tab (face d) 0) d (src d) arr y 0 = arr0 y 0 := by
      intro y hy
      rw [bc_cell_other _ _ _ _ _ _ _ _ _ (Or.inl (fun hyd => hy (by rw [hyd]; exact hd)))]
      exact hinv y hy
    rw [List.foldl_cons]
    by_cases hxt : x ∈ t
    · exact foldl_pressure bc p_bc_s tab face src arr0 inbox hsrc t _
        (fun c hc => hl c (List.mem_cons_of_mem d hc)) hinv1 x hxt hcode
    · have hxd : x = d := by
        cases List.mem_cons.mp hx with
        | inl h => exact h
        | inr h => exact absurd h hxt
      subst hxd
      rw [foldl_untouched
        (fun c a => bc_cell bc p_bc_s (tab (face c) 1) (tab (face c) 0) c (src c) a) x 0 t _
        (fun c hc a => bc_cell_other _ _ _ _ _ _ _ _ _
          (Or.inl (fun hxc => hxt (by rw [hxc]; exact hc))))]
      unfold bc_cell
      rw [if_pos hcode]
      simp only [Array4.assign, and_self, if_true]
      exact hinv (src x) (hsrc x hd)

/-- A ghost cell outside the low-x face only, whose face code is a pressure
inflow or outflow, receives the value of the first interior cell
`scal(dom_lo[0], j, k)`. -/
theorem set_scalar_bcs_pressure_ilo (bc : BcData) (time : ℚ) (lev : Int) (scal_fab : FArrayBox)
    (comp : Int) (domain : Box) (x : IntVect)
    (hbox : scal_fab.box.contains x = true) (hx : x.x < domain.lo.x)
    (hdom : domain.lo.x ≤ domain.hi.x)
    (hy : domain.lo.y ≤ x.y ∧ x.y ≤ domain.hi.y) (hz : domain.lo.z ≤ x.z ∧ x.z ≤ domain.hi.z)
    (hcode : bc.bc_ilo lev ⟨domain.lo.x - 1, x.y, x.z⟩ 0 = bc.pinf ∨
      bc.bc_ilo lev ⟨domain.lo.x - 1, x.y, x.z⟩ 0 = bc.pout) :
    (set_scalar_bcs bc time lev scal_fab comp domain).data x 0 =
      scal_fab.data ⟨domain.lo.x, x.y, x.z⟩ 0 := by
  have hb := hbox
  simp only [Box.contains, Bool.and_eq_true, decide_eq_true_eq] at hb
  have out : ∀ (lo hi : IntVect),
      (x.x < lo.x ∨ hi.x < x.x ∨ x.y < lo.y ∨ hi.y < x.y ∨ x.z < lo.z ∨ hi.z < x.z) →
      ((⟨lo, hi⟩ : Box).contains x = false ∨ (0 : Nat) ≠ 0) := by
    intro lo hi hcase
    left
    by_contra hcon
    have hc : (⟨lo, hi⟩ : Box).contains x = true := by simpa using hcon
    simp only [Box.contains, Bool.and_eq_true, decide_eq_true_eq] at hc
    omega
  simp only [set_scalar_bcs]
  rw [face_loop_untouched _ _ _ _ _ _ _ _ _ _ (out _ _ (by dsimp only; omega)),
    face_loop_untouched _ _ _ _ _ _ _ _ _ _ (out _ _ (by dsimp only; omega)),
    face_loop_untouched _ _ _ _ _ _ _ _ _ _ (out _ _ (by dsimp only; omega)),
    face_loop_untouched _ _ _ _ _ _ _ _ _ _ (out _ _ (by dsimp only; omega)),
    face_loop_untouched _ _ _ _ _ _ _ _ _ _ (out _ _ (by dsimp only; omega))]
  unfold face_loop
  rw [if_pos (by
    have : (0 : Int) < domain.lo.x - scal_fab.box.lo.x := by omega
    exact lt_max_of_lt_right this)]
  unfold AMREX_FOR_3D
  refine foldl_pressure bc _ _ _ _ scal_fab.data
    (fun c => (⟨scal_fab.box.lo,
      ⟨domain.lo.x - 1, scal_fab.box.hi.y, scal_fab.box.hi.z⟩⟩ : Box).contains c = true)
    ?_ _ _ (fun c hc => Box.contains_of_mem_cells hc) (fun _ _ => rfl) x
    (Box.mem_cells_of_contains ?_) hcode
  · intro c hc
    simp only [Box.contains, Bool.and_eq_true, decide_eq_true_eq] at hc ⊢
    omega
  · simp only [Box.contains, Bool.and_eq_true, decide_eq_true_eq]
    omega

/-! ## Theorems -/

/-- C1: `steady_state_reached` called with `iter == 1` returns 0 (not
converged) for every level state, `dt` and tolerance, whatever the velocity
and pressure fields and their snapshots are. -/
theorem steady_state_reached_first_iter (ext : Collab) (st : incflo_level) (dt : ℚ) :
    (steady_state_reached ext st dt 1).1 = 0 := by
  simp [steady_state_reached]

/-- Witness of C1: on the level at rest both criteria hold, the monitor answers
converged on the second pass and still not converged on the first. -/
theorem steady_state_reached_first_iter_witness :
    Criterion1 exRest (1 / 2) ∧ Criterion2 exRest ∧
    (steady_state_reached exCollab exRest (1 / 2) 2).1 = 1 ∧
    (steady_state_reached exCollab exRest (1 / 2) 1).1 = 0 :=
  ⟨by decide!, by decide!, by decide!, steady_state_reached_first_iter exCollab exRest (1 / 2)⟩

/-- C2: for every input with `iter != 1`, `steady_state_reached` returns true
(the integer 1) exactly when Criterion 1 or Criterion 2 holds, and 0 otherwise.
Criterion 1: the maximum norm of each of the three components of
`vel - vel_o` is strictly below `tol * dt`; Criterion 2: each of the three
velocity L1 ratios is strictly below `tol`. In particular Criterion 1 alone
gives convergence, and when it fails the result is converged only if
Criterion 2 holds. -/
theorem steady_state_reached_iff_criteria (ext : Collab) (st : incflo_level) (dt : ℚ)
    (iter : Int) (hiter : iter ≠ 1) :
    ((steady_state_reached ext st dt iter).1 = 1 ↔ Criterion1 st dt ∨ Criterion2 st) ∧
    ((steady_state_reached ext st dt iter).1 = 0 ↔ ¬ (Criterion1 st dt ∨ Criterion2 st)) ∧
    (Criterion1 st dt → (steady_state_reached ext st dt iter).1 = 1) ∧
    (¬ Criterion1 st dt →
      ((steady_state_reached ext st dt iter).1 = 1 ↔ Criterion2 st)) := by
  rw [steady_state_reached_val, if_neg hiter]
  by_cases c1 : Criterion1 st dt <;> by_cases c2 : Criterion2 st <;> simp [b2i, c1, c2]

/-- Witness of C2 at the example level, second iteration. -/
theorem steady_state_reached_iff_criteria_witness :
    ((2 : Int) ≠ 1) ∧
    (((steady_state_reached exCollab exLevel (1 / 2) 2).1 = 1 ↔
        Criterion1 exLevel (1 / 2) ∨ Criterion2 exLevel) ∧
      ((steady_state_reached exCollab exLevel (1 / 2) 2).1 = 0 ↔
        ¬ (Criterion1 exLevel (1 / 2) ∨ Criterion2 exLevel)) ∧
      (Criterion1 exLevel (1 / 2) → (steady_state_reached exCollab exLevel (1 / 2) 2).1 = 1) ∧
      (¬ Criterion1 exLevel (1 / 2) →
        ((steady_state_reached exCollab exLevel (1 / 2) 2).1 = 1 ↔ Criterion2 exLevel))) :=
  ⟨by decide, steady_state_reached_iff_criteria exCollab exLevel (1 / 2) 2 (by decide)⟩

/-- C3: in `steady_state_reached`, for each velocity component, when the L1
norm of the old-time component is below `1e-8` the ratio used by Criterion 2
(`tmp1`, `tmp2`, `tmp3`) is exactly 0 whatever the L1 norm of the difference
is; otherwise it is the L1 norm of the difference divided by the L1 norm of
the old-time component. The second stop condition is the test of these three
ratios against the tolerance. -/
theorem steady_state_ratio_guard (ext : Collab) (st : incflo_level) (dt : ℚ) :
    (incflo_norm1 st.grids st.vel_o 0 < 1 / 100000000 →
      (steady_state_locals (incflo_set_velocity_bcs ext st 0) dt).tmp1 = 0) ∧
    (¬ incflo_norm1 st.grids st.vel_o 0 < 1 / 100000000 →
      (steady_state_locals (incflo_set_velocity_bcs ext st 0) dt).tmp1 =
        velDiffL1 st 0 / incflo_norm1 st.grids st.vel_o 0) ∧
    (incflo_norm1 st.grids st.vel_o 1 < 1 / 100000000 →
      (steady_state_locals (incflo_set_velocity_bcs ext st 0) dt).tmp2 = 0) ∧
    (¬ incflo_norm1 st.grids st.vel_o 1 < 1 / 100000000 →
      (steady_state_locals (incflo_set_velocity_bcs ext st 0) dt).tmp2 =
        velDiffL1 st 1 / incflo_norm1 st.grids st.vel_o 1) ∧
    (incflo_norm1 st.grids st.vel_o 2 < 1 / 100000000 →
      (steady_state_locals (incflo_set_velocity_bcs ext st 0) dt).tmp3 = 0) ∧
    (¬ incflo_norm1 st.grids st.vel_o 2 < 1 / 100000000 →
      (steady_state_locals (incflo_set_velocity_bcs ext st 0) dt).tmp3 =
        velDiffL1 st 2 / incflo_norm1 st.grids st.vel_o 2) ∧
    ((steady_state_locals (incflo_set_velocity_bcs ext st 0) dt).condition2 = 1 ↔
      (steady_state_locals (incflo_set_velocity_bcs ext st 0) dt).tmp1 < st.steady_state_tol ∧
      (steady_state_locals (incflo_set_velocity_bcs ext st 0) dt).tmp2 < st.steady_state_tol ∧
      (steady_state_locals (incflo_set_velocity_bcs ext st 0) dt).tmp3 < st.steady_state_tol) := by
  have g : (incflo_set_velocity_bcs ext st 0).grids = st.grids := rfl
  have o : (incflo_set_velocity_bcs ext st 0).vel_o = st.vel_o := rfl
  have t : (incflo_set_velocity_bcs ext st 0).steady_state_tol = st.steady_state_tol := rfl
  simp only [steady_state_locals, g, o, t]
  rw [temp_vel_norm1 ext st 0 (by decide), temp_vel_norm1 ext st 1 (by decide),
    temp_vel_norm1 ext st 2 (by decide)]
  refine ⟨?_, ?_, ?_, ?_, ?_, ?_, ?_⟩
  · intro h; simp only [local_tol, if_pos h]
  · intro h; simp only [local_tol, if_neg h]
  · intro h; simp only [local_tol, if_pos h]
  · intro h; simp only [local_tol, if_neg h]
  · intro h; simp only [local_tol, if_pos h]
  · intro h; simp only [local_tol, if_neg h]
  · simp [b2i, and_assoc]

/-- Witness of C3: from a zero snapshot the old-time L1 norm of the first
component is below `1e-8`, the L1 norm of the difference is not zero, and the
ratio `tmp1` is 0; on the example level the old-time norm is above the
threshold and `tmp1` is the quotient. -/
theorem steady_state_ratio_guard_witness :
    (incflo_norm1 exColdStart.grids exColdStart.vel_o 0 < 1 / 100000000 ∧
      velDiffL1 exColdStart 0 ≠ 0 ∧
      (steady_state_locals (incflo_set_velocity_bcs exCollab exColdStart 0) (1 / 2)).tmp1 = 0) ∧
    (¬ incflo_norm1 exLevel.grids exLevel.vel_o 0 < 1 / 100000000 ∧
      (steady_state_locals (incflo_set_velocity_bcs exCollab exLevel 0) (1 / 2)).tmp1 =
        velDiffL1 exLevel 0 / incflo_norm1 exLevel.grids exLevel.vel_o 0) :=
  ⟨⟨by decide!, by decide!,
      (steady_state_ratio_guard exCollab exColdStart (1 / 2)).1 (by decide!)⟩,
    ⟨by decide!, (steady_state_ratio_guard exCollab exLevel (1 / 2)).2.1 (by decide!)⟩⟩

/-- C4: the value returned by `steady_state_reached` does not depend on the
pressure fields: two calls that agree on everything but `p` and `p_o` return
the same decision. -/
theorem steady_state_reached_ignores_pressure (ext : Collab) (st : incflo_level) (dt : ℚ)
    (iter : Int) (p1 p_o1 : MultiFab) :
    (steady_state_reached ext { st with p := p1, p_o := p_o1 } dt iter).1 =
      (steady_state_reached ext st dt iter).1 := by
  rw [steady_state_reached_val, steady_state_reached_val]
  rfl

/-- C5: for every set of field extrema and every candidate `dt_new` returned
by the external CFL formula, `incflo_compute_dt` sets `dt` to `fixed_dt` when
`fixed_dt > 0`, whether `fixed_dt` is smaller or larger than `dt_new`, and to
`dt_new` when `fixed_dt <= 0`; hence the returned `dt` exceeds `dt_new` only if
a fixed step larger than `dt_new` is configured. -/
theorem incflo_compute_dt_value (ext : Collab) (st : incflo_level) (time stop_time : ℚ)
    (steady_state : Int) (dt : ℚ) :
    (0 < st.fixed_dt →
      (incflo_compute_dt ext st time stop_time steady_state dt).1 = st.fixed_dt) ∧
    (st.fixed_dt ≤ 0 →
      (incflo_compute_dt ext st time stop_time steady_state dt).1 =
        cfl_dt_new ext st time stop_time steady_state dt) ∧
    (cfl_dt_new ext st time stop_time steady_state dt <
        (incflo_compute_dt ext st time stop_time steady_state dt).1 →
      0 < st.fixed_dt ∧ cfl_dt_new ext st time stop_time steady_state dt < st.fixed_dt) := by
  by_cases h : st.fixed_dt > 0
  · have e : (incflo_compute_dt ext st time stop_time steady_state dt).1 = st.fixed_dt := by
      unfold incflo_compute_dt
      rw [if_pos h]
    rw [e]
    exact ⟨fun _ => rfl, fun h0 => absurd h (not_lt.mpr h0), fun hlt => ⟨h, hlt⟩⟩
  · have e : (incflo_compute_dt ext st time stop_time steady_state dt).1 =
        cfl_dt_new ext st time stop_time steady_state dt := by
      unfold incflo_compute_dt
      rw [if_neg h]
    rw [e]
    exact ⟨fun h0 => absurd h0 h, fun _ => rfl, fun hlt => absurd hlt (lt_irrefl _)⟩

/-- C6 fails as stated: with a fixed step `fixed_dt = 1/8` smaller than the
candidate `dt_new = 1/4` the fixed step is adopted and nothing is reported,
and with `fixed_dt = 1`, not smaller than `dt_new = 1/4`, the fixed step is
adopted and the warning is reported. -/
theorem incflo_compute_dt_warning_counterexample :
    (0 < ({ exLevel with fixed_dt := 1 / 8 } : incflo_level).fixed_dt ∧
      ({ exLevel with fixed_dt := 1 / 8 } : incflo_level).fixed_dt <
        cfl_dt_new exCollab { exLevel with fixed_dt := 1 / 8 } 0 1 0 1 ∧
      (incflo_compute_dt exCollab { exLevel with fixed_dt := 1 / 8 } 0 1 0 1).1 = 1 / 8 ∧
      (incflo_compute_dt exCollab { exLevel with fixed_dt := 1 / 8 } 0 1 0 1).2.out =
        ({ exLevel with fixed_dt := 1 / 8 } : incflo_level).out) ∧
    (0 < ({ exLevel with fixed_dt := 1 } : incflo_level).fixed_dt ∧
      ¬ ({ exLevel with fixed_dt := 1 } : incflo_level).fixed_dt <
        cfl_dt_new exCollab { exLevel with fixed_dt := 1 } 0 1 0 1 ∧
      (incflo_compute_dt exCollab { exLevel with fixed_dt := 1 } 0 1 0 1).1 = 1 ∧
      (incflo_compute_dt exCollab { exLevel with fixed_dt := 1 } 0 1 0 1).2.out =
        ({ exLevel with fixed_dt := 1 } : incflo_level).out ++ [Msg.cflWarning (1 / 4) 1]) := by
  refine ⟨⟨?_, ?_, ?_, ?_⟩, ⟨?_, ?_, ?_, ?_⟩⟩ <;>
    norm_num [incflo_compute_dt, cfl_dt_new, exCollab, exLevel]

/-- C6, amended: with a fixed step configured (`fixed_dt > 0`), if the computed
`dt_new` is smaller than `fixed_dt` the fixed step is adopted and exactly one
violation warning, carrying `dt_new` and `fixed_dt`, is appended to the output;
if `dt_new` is not smaller than `fixed_dt` the fixed step is adopted and the
level, its output included, is left as it was. -/
theorem incflo_compute_dt_warning (ext : Collab) (st : incflo_level) (time stop_time : ℚ)
    (steady_state : Int) (dt : ℚ) (hfixed : 0 < st.fixed_dt) :
    (cfl_dt_new ext st time stop_time steady_state dt < st.fixed_dt →
      (incflo_compute_dt ext st time stop_time steady_state dt).1 = st.fixed_dt ∧
      (incflo_compute_dt ext st time stop_time steady_state dt).2.out =
        st.out ++ [Msg.cflWarning (cfl_dt_new ext st time stop_time steady_state dt)
          st.fixed_dt]) ∧
    (¬ cfl_dt_new ext st time stop_time steady_state dt < st.fixed_dt →
      (incflo_compute_dt ext st time stop_time steady_state dt).1 = st.fixed_dt ∧
      (incflo_compute_dt ext st time stop_time steady_state dt).2 = st) := by
  unfold incflo_compute_dt
  have h : st.fixed_dt > 0 := hfixed
  simp only [if_pos h]
  constructor
  · intro hlt
    simp only [if_pos hlt, and_self]
  · intro hge
    simp only [if_neg hge, and_self]

/-- Witness of the amended C6: a fixed step of 1 against a candidate of 1/4. -/
theorem incflo_compute_dt_warning_witness :
    (0 < ({ exLevel with fixed_dt := 1 } : incflo_level).fixed_dt) ∧
    ((cfl_dt_new exCollab { exLevel with fixed_dt := 1 } 0 1 0 1 <
        ({ exLevel with fixed_dt := 1 } : incflo_level).fixed_dt →
      (incflo_compute_dt exCollab { exLevel with fixed_dt := 1 } 0 1 0 1).1 =
        ({ exLevel with fixed_dt := 1 } : incflo_level).fixed_dt ∧
      (incflo_compute_dt exCollab { exLevel with fixed_dt := 1 } 0 1 0 1).2.out =
        ({ exLevel with fixed_dt := 1 } : incflo_level).out ++
          [Msg.cflWarning (cfl_dt_new exCollab { exLevel with fixed_dt := 1 } 0 1 0 1)
            ({ exLevel with fixed_dt := 1 } : incflo_level).fixed_dt]) ∧
    (¬ cfl_dt_new exCollab { exLevel with fixed_dt := 1 } 0 1 0 1 <
        ({ exLevel with fixed_dt := 1 } : incflo_level).fixed_dt →
      (incflo_compute_dt exCollab { exLevel with fixed_dt := 1 } 0 1 0 1).1 =
        ({ exLevel with fixed_dt := 1 } : incflo_level).fixed_dt ∧
      (incflo_compute_dt exCollab { exLevel with fixed_dt := 1 } 0 1 0 1).2 =
        { exLevel with fixed_dt := 1 })) :=
  ⟨by norm_num, incflo_compute_dt_warning exCollab { exLevel with fixed_dt := 1 } 0 1 0 1
    (by norm_num)⟩

/-- C7: in exact arithmetic, for every cell of the velocity (ghost cells
included) with density `rho > 0` and every velocity component, the momentum
round trip of predictor and corrector (multiply by `rho`, add `-dt*gp`, add
`-dt*gp0`, divide by `rho`) yields `v - dt*(gp + gp0)/rho`; with zero pressure
gradients it returns `v`, and dividing the momenta by `rho` right after
multiplying gives back `v`. -/
theorem momentum_round_trip_value (st : incflo_level) (dt : ℚ) (i : Nat) (c : IntVect)
    (n : Nat) (hn : n < 3) (hc : st.grids.covers st.vel.ngrow i c = true)
    (hro : 0 < st.ro.data i c 0) :
    (momentum_round_trip st dt).vel.data i c n =
        st.vel.data i c n - dt * (st.gp.data i c n + st.gp0.data i c n) / st.ro.data i c 0 ∧
    (st.gp.data i c n = 0 → st.gp0.data i c n = 0 →
      (momentum_round_trip st dt).vel.data i c n = st.vel.data i c n) ∧
    (momenta_to_velocities st.grids (velocities_to_momenta st.grids st.vel st.ro) st.ro).data
        i c n = st.vel.data i c n := by
  have hne : st.ro.data i c 0 ≠ 0 := ne_of_gt hro
  have key : (momentum_round_trip st dt).vel.data i c n =
      st.vel.data i c n - dt * (st.gp.data i c n + st.gp0.data i c n) / st.ro.data i c 0 := by
    interval_cases n <;>
      simp [momentum_round_trip, velocities_to_momenta, momenta_to_velocities,
        MultiFab.Multiply, MultiFab.Divide, MultiFab.Saxpy, inComps, hc] <;>
      field_simp <;> ring
  refine ⟨key, ?_, ?_⟩
  · intro h1 h2
    rw [key, h1, h2]
    simp
  · interval_cases n <;>
      simp [velocities_to_momenta, momenta_to_velocities, MultiFab.Multiply,
        MultiFab.Divide, inComps, hc, hne]

/-- Witness of C7 at the first cell of the example level. -/
theorem momentum_round_trip_value_witness :
    ((1 : Nat) < 3 ∧ exLevel.grids.covers exLevel.vel.ngrow 0 ⟨0, 0, 0⟩ = true ∧
      0 < exLevel.ro.data 0 ⟨0, 0, 0⟩ 0) ∧
    ((momentum_round_trip exLevel (1 / 2)).vel.data 0 ⟨0, 0, 0⟩ 1 =
        exLevel.vel.data 0 ⟨0, 0, 0⟩ 1 -
          1 / 2 * (exLevel.gp.data 0 ⟨0, 0, 0⟩ 1 + exLevel.gp0.data 0 ⟨0, 0, 0⟩ 1) /
            exLevel.ro.data 0 ⟨0, 0, 0⟩ 0 ∧
      (exLevel.gp.data 0 ⟨0, 0, 0⟩ 1 = 0 → exLevel.gp0.data 0 ⟨0, 0, 0⟩ 1 = 0 →
        (momentum_round_trip exLevel (1 / 2)).vel.data 0 ⟨0, 0, 0⟩ 1 =
          exLevel.vel.data 0 ⟨0, 0, 0⟩ 1) ∧
      (momenta_to_velocities exLevel.grids
        (velocities_to_momenta exLevel.grids exLevel.vel exLevel.ro) exLevel.ro).data
          0 ⟨0, 0, 0⟩ 1 = exLevel.vel.data 0 ⟨0, 0, 0⟩ 1) :=
  ⟨⟨by decide, by decide, by norm_num [exLevel, exField]⟩,
    momentum_round_trip_value exLevel (1 / 2) 0 ⟨0, 0, 0⟩ 1 (by decide) (by decide)
      (by norm_num [exLevel, exField])⟩

/-- C8: in `incflo_apply_corrector`, for every valid cell and every component,
the velocity just before the forcing terms equals
`vel_o + (dt/2)*(conv + conv_old) + (dt/2)*(divtau + divtau_old)`, where `conv`
and `divtau` are the operator evaluations on the predicted velocity held in
`vel` at corrector entry and `conv_old`, `divtau_old` are the terms passed in;
the value depends on the predicted velocity through `conv` and `divtau` only:
another entry velocity with the same two evaluations at the cell gives the
same value. -/
theorem corrector_explicit_terms_value (ext : Collab) (st : incflo_level)
    (conv_old divtau_old : MultiFab) (dt : ℚ) (i : Nat) (c : IntVect) (n : Nat)
    (hn : n < 3) (hc : st.grids.covers 0 i c = true) :
    (corrector_explicit_terms ext st conv_old divtau_old dt).vel.data i c n =
        st.vel_o.data i c n +
          dt / 2 * (ext.incflo_compute_ugradu_corrector st st.vel i c n + conv_old.data i c n) +
          dt / 2 * (ext.incflo_compute_divtau st st.vel i c n + divtau_old.data i c n) ∧
    (∀ v : MultiFab,
      ext.incflo_compute_ugradu_corrector { st with vel := v } v i c n =
        ext.incflo_compute_ugradu_corrector st st.vel i c n →
      ext.incflo_compute_divtau { st with vel := v } v i c n =
        ext.incflo_compute_divtau st st.vel i c n →
      (corrector_explicit_terms ext { st with vel := v } conv_old divtau_old dt).vel.data i c n =
        (corrector_explicit_terms ext st conv_old divtau_old dt).vel.data i c n) := by
  have key : ∀ s : incflo_level, s.grids = st.grids →
      (corrector_explicit_terms ext s conv_old divtau_old dt).vel.data i c n =
        s.vel_o.data i c n +
          dt / 2 * (ext.incflo_compute_ugradu_corrector s s.vel i c n + conv_old.data i c n) +
          dt / 2 * (ext.incflo_compute_divtau s s.vel i c n + divtau_old.data i c n) := by
    intro s hs
    simp [corrector_explicit_terms, MultiFab.LinComb, MultiFab.Saxpy, MultiFab.define,
      inComps, hs, hc, hn]
    ring
  refine ⟨key st rfl, ?_⟩
  intro v h1 h2
  rw [key st rfl, key { st with vel := v } rfl, h1, h2]

/-- Witness of C8 at the second cell of the example level. -/
theorem corrector_explicit_terms_value_witness :
    ((2 : Nat) < 3 ∧ exLevel.grids.covers 0 0 ⟨1, 0, 0⟩ = true) ∧
    ((corrector_explicit_terms exCollab exLevel (exField 3 0 7) (exField 3 0 9)
          (1 / 2)).vel.data 0 ⟨1, 0, 0⟩ 2 =
        exLevel.vel_o.data 0 ⟨1, 0, 0⟩ 2 +
          1 / 2 / 2 * (exCollab.incflo_compute_ugradu_corrector exLevel exLevel.vel 0 ⟨1, 0, 0⟩ 2 +
            (exField 3 0 7).data 0 ⟨1, 0, 0⟩ 2) +
          1 / 2 / 2 * (exCollab.incflo_compute_divtau exLevel exLevel.vel 0 ⟨1, 0, 0⟩ 2 +
            (exField 3 0 9).data 0 ⟨1, 0, 0⟩ 2) ∧
      (∀ v : MultiFab,
        exCollab.incflo_compute_ugradu_corrector { exLevel with vel := v } v 0 ⟨1, 0, 0⟩ 2 =
          exCollab.incflo_compute_ugradu_corrector exLevel exLevel.vel 0 ⟨1, 0, 0⟩ 2 →
        exCollab.incflo_compute_divtau { exLevel with vel := v } v 0 ⟨1, 0, 0⟩ 2 =
          exCollab.incflo_compute_divtau exLevel exLevel.vel 0 ⟨1, 0, 0⟩ 2 →
        (corrector_explicit_terms exCollab { exLevel with vel := v } (exField 3 0 7)
            (exField 3 0 9) (1 / 2)).vel.data 0 ⟨1, 0, 0⟩ 2 =
          (corrector_explicit_terms exCollab exLevel (exField 3 0 7) (exField 3 0 9)
            (1 / 2)).vel.data 0 ⟨1, 0, 0⟩ 2)) :=
  ⟨⟨by decide, by decide⟩,
    corrector_explicit_terms_value exCollab exLevel (exField 3 0 7) (exField 3 0 9) (1 / 2)
      0 ⟨1, 0, 0⟩ 2 (by decide) (by decide)⟩

/-- C9: within one outer-loop iteration of `Advance`, after the old-state
backup the snapshot equals the live state on every cell of the snapshot
(`vel_o == vel`, `p_o == p`, `ro_o == ro`, so every difference is zero), and
consequently, on every valid cell and for each of the three components, the
predictor's velocity just before the forcing terms equals
`vel_o + dt*conv_old + dt*divtau_old` with `conv_old = C(vel_o)` and
`divtau_old = D(vel_o)`. -/
theorem backup_then_predictor_terms (ext : Collab) (st : incflo_level)
    (conv_old divtau_old : MultiFab) (dt : ℚ) (hvel : 3 ≤ st.vel.ncomp) :
    (∀ i c n, st.grids.covers st.vel_o.ngrow i c = true → n < st.vel.ncomp →
      (backup_old_state st).vel_o.data i c n = (backup_old_state st).vel.data i c n ∧
      (backup_old_state st).vel.data i c n - (backup_old_state st).vel_o.data i c n = 0) ∧
    (∀ i c n, st.grids.covers st.p_o.ngrow i c = true → n < st.p.ncomp →
      (backup_old_state st).p_o.data i c n = (backup_old_state st).p.data i c n ∧
      (backup_old_state st).p.data i c n - (backup_old_state st).p_o.data i c n = 0) ∧
    (∀ i c n, st.grids.covers st.ro_o.ngrow i c = true → n < st.ro.ncomp →
      (backup_old_state st).ro_o.data i c n = (backup_old_state st).ro.data i c n ∧
      (backup_old_state st).ro.data i c n - (backup_old_state st).ro_o.data i c n = 0) ∧
    (∀ i c n, st.grids.covers 0 i c = true → n < 3 →
      (predictor_explicit_terms ext (backup_old_state st) conv_old divtau_old dt).1.vel.data
          i c n =
        (backup_old_state st).vel_o.data i c n +
          dt * (predictor_explicit_terms ext (backup_old_state st) conv_old divtau_old
            dt).2.1.data i c n +
          dt * (predictor_explicit_terms ext (backup_old_state st) conv_old divtau_old
            dt).2.2.data i c n) ∧
    ((predictor_explicit_terms ext (backup_old_state st) conv_old divtau_old dt).2.1.data =
        ext.incflo_compute_ugradu_predictor (backup_old_state st) (backup_old_state st).vel_o) ∧
    ((predictor_explicit_terms ext (backup_old_state st) conv_old divtau_old dt).2.2.data =
        ext.incflo_compute_divtau (backup_old_state st) (backup_old_state st).vel_o) := by
  refine ⟨?_, ?_, ?_, ?_, rfl, rfl⟩
  · intro i c n hc hn
    have e : (backup_old_state st).vel_o.data i c n = (backup_old_state st).vel.data i c n :=
      backup_vel_o_data st i c n hn hc
    exact ⟨e, by rw [e]; ring⟩
  · intro i c n hc hn
    have e : (backup_old_state st).p_o.data i c n = (backup_old_state st).p.data i c n := by
      simp [backup_old_state, MultiFab.Copy, inComps, hc, hn]
    exact ⟨e, by rw [e]; ring⟩
  · intro i c n hc hn
    have e : (backup_old_state st).ro_o.data i c n = (backup_old_state st).ro.data i c n := by
      simp [backup_old_state, MultiFab.Copy, inComps, hc, hn]
    exact ⟨e, by rw [e]; ring⟩
  · intro i c n hc hn
    have hg : (backup_old_state st).grids = st.grids := rfl
    have hv : (backup_old_state st).vel = st.vel := rfl
    have e := backup_vel_o_data st i c n (lt_of_lt_of_le hn hvel)
      (BoxArray.covers_grow st.vel_o.ngrow hc)
    rw [e]
    simp [predictor_explicit_terms, MultiFab.Saxpy, inComps, hg, hv, hc, hn]

/-- Witness of C9 at the example level, whose velocity has three components. -/
theorem backup_then_predictor_terms_witness :
    (3 ≤ exLevel.vel.ncomp) ∧
    (∀ i c n, exLevel.grids.covers 0 i c = true → n < 3 →
      (predictor_explicit_terms exCollab (backup_old_state exLevel) (MultiFab.define 3 0)
          (MultiFab.define 3 0) (1 / 2)).1.vel.data i c n =
        (backup_old_state exLevel).vel_o.data i c n +
          1 / 2 * (predictor_explicit_terms exCollab (backup_old_state exLevel)
            (MultiFab.define 3 0) (MultiFab.define 3 0) (1 / 2)).2.1.data i c n +
          1 / 2 * (predictor_explicit_terms exCollab (backup_old_state exLevel)
            (MultiFab.define 3 0) (MultiFab.define 3 0) (1 / 2)).2.2.data i c n) :=
  ⟨by decide,
    (backup_then_predictor_terms exCollab exLevel (MultiFab.define 3 0) (MultiFab.define 3 0)
      (1 / 2) (by decide)).2.2.2.1⟩

/-- C10: `Advance` enters its loop with the counter at 1, and a loop that
exits after `n` passes leaves the counter at `1 + n`, pass number `k` having
run with counter `k`. In non-steady mode (`steady_state == 0`) the loop body
(compute dt, snapshot, predictor, corrector) runs exactly once whatever the
fields are, and `Advance` returns. In steady-state mode, if the loop exits
after `n` passes then `steady_state_reached` answered converged in pass `n`
and not converged in every pass before `n`. -/
theorem Advance_loop_iterations (ext : Collab) (nstep steady_state : Int)
    (time stop_time : ℚ) :
    (∀ (fuel : Nat) (st : incflo_level) (dt prev_dt : ℚ),
      Advance ext fuel st 0 nstep steady_state dt prev_dt time stop_time =
        match Advance_loop ext nstep steady_state time stop_time fuel (Advance_entry ext st)
          dt 1 with
        | none => Except.error AdvanceError.outOfFuel
        | some r => Except.ok (r.1, r.2.1, r.2.1)) ∧
    (∀ (fuel : Nat) (st : incflo_level) (dt : ℚ) (r : incflo_level × ℚ × Int),
      Advance_loop ext nstep steady_state time stop_time fuel st dt 1 = some r →
      ∃ n : Nat, 1 ≤ n ∧ n ≤ fuel ∧ r.2.2 = 1 + (n : Int) ∧
        (r.1, r.2.1) = Advance_after ext nstep steady_state time stop_time st dt 1 n) ∧
    (steady_state = 0 →
      ∀ (fuel : Nat) (st : incflo_level) (dt prev_dt : ℚ),
        Advance_loop ext nstep steady_state time stop_time (fuel + 1) st dt 1 =
          some ((Advance_body ext nstep steady_state time stop_time st dt 1).1,
            (Advance_body ext nstep steady_state time stop_time st dt 1).2, 2) ∧
        Advance ext (fuel + 1) st 0 nstep steady_state dt prev_dt time stop_time =
          Except.ok
            ((Advance_body ext nstep steady_state time stop_time (Advance_entry ext st) dt 1).1,
              (Advance_body ext nstep steady_state time stop_time (Advance_entry ext st) dt 1).2,
              (Advance_body ext nstep steady_state time stop_time (Advance_entry ext st) dt
                1).2)) ∧
    (steady_state ≠ 0 →
      ∀ (fuel : Nat) (st : incflo_level) (dt : ℚ) (r : incflo_level × ℚ × Int),
        Advance_loop ext nstep steady_state time stop_time fuel st dt 1 = some r →
        ∃ n : Nat, 1 ≤ n ∧ r.2.2 = 1 + (n : Int) ∧
          Advance_monitor ext nstep steady_state time stop_time st dt n ≠ 0 ∧
          ∀ k : Nat, 1 ≤ k → k < n →
            Advance_monitor ext nstep steady_state time stop_time st dt k = 0) := by
  have once : ∀ (fuel : Nat) (st : incflo_level) (dt : ℚ),
      Advance_loop ext nstep 0 time stop_time (fuel + 1) st dt 1 =
        some ((Advance_body ext nstep 0 time stop_time st dt 1).1,
          (Advance_body ext nstep 0 time stop_time st dt 1).2, 2) := by
    intro fuel st dt
    rw [Advance_loop, Advance_pass_unsteady]
    simp
  refine ⟨?_, ?_, ?_, ?_⟩
  · intro fuel st dt prev_dt
    simp [Advance]
  · intro fuel st dt r h
    obtain ⟨m, hm, hr, -, -⟩ := Advance_loop_exit ext nstep steady_state time stop_time _ _ _ _ _ h
    refine ⟨m + 1, by omega, by omega, ?_, ?_⟩
    · rw [hr]
    · rw [hr]
  · intro hs fuel st dt prev_dt
    subst hs
    refine ⟨once fuel st dt, ?_⟩
    simp [Advance, once]
  · intro hs fuel st dt r h
    obtain ⟨m, -, hr, hlast, hbefore⟩ :=
      Advance_loop_exit ext nstep steady_state time stop_time _ _ _ _ _ h
    refine ⟨m + 1, by omega, by rw [hr], ?_, ?_⟩
    · rw [Advance_pass_keep _ _ _ _ _ _ _ _ hs] at hlast
      have e : (1 : Int) + (m : Int) = ((m + 1 : Nat) : Int) := by push_cast; ring
      rw [e] at hlast
      intro h0
      simp only [Advance_monitor, Nat.add_sub_cancel] at h0
      rw [h0] at hlast
      simp [b2i] at hlast
    · intro k hk1 hkn
      obtain ⟨j, rfl⟩ : ∃ j, k = j + 1 := ⟨k - 1, by omega⟩
      have hne := hbefore j (by omega)
      rw [Advance_pass_keep _ _ _ _ _ _ _ _ hs] at hne
      have e : (1 : Int) + (j : Int) = ((j + 1 : Nat) : Int) := by push_cast; ring
      rw [e] at hne
      simp only [Advance_monitor, Nat.add_sub_cancel]
      by_contra hcon
      apply hne
      rw [beq_eq_false_iff_ne.mpr hcon]
      rfl

/-- Witness of C10: in steady-state mode the example run leaves the loop after
two passes, with the counter at 3; the monitor answered not converged in
pass 1 and converged in pass 2. -/
theorem Advance_loop_iterations_witness :
    ((1 : Int) ≠ 0 ∧
      Advance_loop exCollab 0 1 0 1 2 exSteady (1 / 2) 1 =
        some (exPass2.2.1, exPass2.2.2, 1 + 1 + 1)) ∧
    (∃ n : Nat, 1 ≤ n ∧
      (exPass2.2.1, exPass2.2.2, (1 + 1 + 1 : Int)).2.2 = 1 + (n : Int) ∧
      Advance_monitor exCollab 0 1 0 1 exSteady (1 / 2) n ≠ 0 ∧
      ∀ k : Nat, 1 ≤ k → k < n → Advance_monitor exCollab 0 1 0 1 exSteady (1 / 2) k = 0) := by
  have k1 : (Advance_pass exCollab 0 1 0 1 exSteady (1 / 2) 1).1 = 1 := by decide!
  have k2 : (Advance_pass exCollab 0 1 0 1
      (Advance_pass exCollab 0 1 0 1 exSteady (1 / 2) 1).2.1
      (Advance_pass exCollab 0 1 0 1 exSteady (1 / 2) 1).2.2 (1 + 1)).1 = 0 := by decide!
  have run : Advance_loop exCollab 0 1 0 1 2 exSteady (1 / 2) 1 =
      some (exPass2.2.1, exPass2.2.2, 1 + 1 + 1) := by
    rw [Advance_loop, if_pos (by rw [k1]; decide), Advance_loop, if_neg (by rw [k2]; decide)]
    simp only [exPass2, exPass1]
  exact ⟨⟨by decide, run⟩,
    (Advance_loop_iterations exCollab 0 1 0 1).2.2.2 (by decide) 2 exSteady (1 / 2) _ run⟩

/-- C13: in steady-state mode (`steady_state != 0`) `Advance` never leaves its
loop after the first pass, whatever the fields, the tolerance and `dt` are:
the first pass always sets `keep_looping`, a pass budget of one is never
enough, and a run that returns has made at least two passes, each of which
runs the predictor and the corrector once. -/
theorem Advance_steady_two_passes (ext : Collab) (nstep steady_state : Int)
    (time stop_time : ℚ) (hs : steady_state ≠ 0) :
    (∀ (st : incflo_level) (dt : ℚ),
      (steady_state_reached ext
        (Advance_body ext nstep steady_state time stop_time st dt 1).1
        (Advance_body ext nstep steady_state time stop_time st dt 1).2 1).1 = 0 ∧
      (Advance_pass ext nstep steady_state time stop_time st dt 1).1 = 1) ∧
    (∀ (fuel : Nat) (st : incflo_level) (dt : ℚ) (r : incflo_level × ℚ × Int),
      Advance_loop ext nstep steady_state time stop_time fuel st dt 1 = some r →
      ∃ n : Nat, 2 ≤ n ∧ n ≤ fuel ∧ r.2.2 = 1 + (n : Int) ∧
        (r.1, r.2.1) = Advance_after ext nstep steady_state time stop_time st dt 1 n) ∧
    (∀ (st : incflo_level) (dt prev_dt : ℚ),
      Advance ext 1 st 0 nstep steady_state dt prev_dt time stop_time =
        Except.error AdvanceError.outOfFuel) ∧
    (∀ (fuel : Nat) (st : incflo_level) (dt prev_dt : ℚ) (res : incflo_level × ℚ × ℚ),
      Advance ext fuel st 0 nstep steady_state dt prev_dt time stop_time = Except.ok res →
      ∃ n : Nat, 2 ≤ n ∧ n ≤ fuel ∧
        (res.1, res.2.1) =
          Advance_after ext nstep steady_state time stop_time (Advance_entry ext st) dt 1 n) := by
  have two : ∀ (fuel : Nat) (st : incflo_level) (dt : ℚ) (r : incflo_level × ℚ × Int),
      Advance_loop ext nstep steady_state time stop_time fuel st dt 1 = some r →
      ∃ n : Nat, 2 ≤ n ∧ n ≤ fuel ∧ r.2.2 = 1 + (n : Int) ∧
        (r.1, r.2.1) = Advance_after ext nstep steady_state time stop_time st dt 1 n := by
    intro fuel st dt r h
    obtain ⟨m, hm, hr, hlast, -⟩ :=
      Advance_loop_exit ext nstep steady_state time stop_time _ _ _ _ _ h
    have hm1 : 1 ≤ m := by
      by_contra hcon
      have hm0 : m = 0 := by omega
      subst hm0
      have hfirst := Advance_pass_first ext nstep steady_state time stop_time st dt hs
      simp only [Advance_after, Nat.cast_zero, add_zero] at hlast
      rw [hfirst] at hlast
      exact absurd hlast (by decide)
    exact ⟨m + 1, by omega, by omega, by rw [hr], by rw [hr]⟩
  refine ⟨?_, two, ?_, ?_⟩
  · intro st dt
    refine ⟨?_, Advance_pass_first ext nstep steady_state time stop_time st dt hs⟩
    rw [steady_state_reached_val, if_pos rfl]
  · intro st dt prev_dt
    have h1 : Advance_loop ext nstep steady_state time stop_time 1 (Advance_entry ext st) dt 1 =
        none := by
      rw [Advance_loop, if_pos (by
        rw [Advance_pass_first ext nstep steady_state time stop_time _ dt hs]; decide)]
      rfl
    simp [Advance, h1]
  · intro fuel st dt prev_dt res h
    unfold Advance at h
    rw [if_neg (by decide)] at h
    cases hl : Advance_loop ext nstep steady_state time stop_time fuel (Advance_entry ext st)
        dt 1 with
    | none => rw [hl] at h; simp at h
    | some r =>
      rw [hl] at h
      simp only [Except.ok.injEq] at h
      obtain ⟨n, h2, hf, -, hst⟩ := two fuel _ dt r hl
      refine ⟨n, h2, hf, ?_⟩
      rw [← hst, ← h]

/-- Witness of C13: the steady-state example run returns after two passes. -/
theorem Advance_steady_two_passes_witness :
    ((1 : Int) ≠ 0 ∧
      Advance_loop exCollab 0 1 0 1 2 exSteady (1 / 2) 1 =
        some (exPass2.2.1, exPass2.2.2, 1 + 1 + 1)) ∧
    (∃ n : Nat, 2 ≤ n ∧ n ≤ 2 ∧
      (exPass2.2.1, exPass2.2.2, (1 + 1 + 1 : Int)).2.2 = 1 + (n : Int) ∧
      ((exPass2.2.1, exPass2.2.2, (1 + 1 + 1 : Int)).1,
        (exPass2.2.1, exPass2.2.2, (1 + 1 + 1 : Int)).2.1) =
          Advance_after exCollab 0 1 0 1 exSteady (1 / 2) 1 n) :=
  ⟨⟨by decide, exSteady_run⟩,
    (Advance_steady_two_passes exCollab 0 1 0 1 (by decide)).2.1 2 exSteady (1 / 2) _
      exSteady_run⟩

/-- C11 fails as stated: on the example level with density `-2` in every cell
the momentum round trip completes, reports nothing and returns a velocity
field (the value `9/2` in the second component of the first cell), and a
non-steady `Advance` on that level returns normally. -/
theorem momentum_round_trip_negative_density_counterexample :
    (∀ i c, exNegDensity.ro.data i c 0 < 0) ∧
    (momentum_round_trip exNegDensity (1 / 2)).out = exNegDensity.out ∧
    (momentum_round_trip exNegDensity (1 / 2)).vel.data 0 ⟨0, 0, 0⟩ 1 = 9 / 2 ∧
    (Advance exCollab 1 exNegDensity 0 0 0 (1 / 2) 0 0 1).toBool = true := by
  refine ⟨?_, rfl, by decide!, by decide!⟩
  intro i c
  norm_num [exNegDensity, exField]

/-- C11, amended: the momentum round trip of predictor and corrector makes no
check on the density. For every density it completes and returns the level
with a velocity field, reporting nothing and touching no other field; in every
cell of the velocity whose density is not zero, negative densities included,
the returned velocity is `v - dt*(gp + gp0)/rho`. A non-steady `Advance`
returns normally whatever the density is. -/
theorem momentum_round_trip_no_density_check (ext : Collab) (st : incflo_level) (dt : ℚ) :
    (momentum_round_trip st dt).out = st.out ∧
    (momentum_round_trip st dt).ro = st.ro ∧
    (∀ (i : Nat) (c : IntVect) (n : Nat), n < 3 →
      st.grids.covers st.vel.ngrow i c = true → st.ro.data i c 0 ≠ 0 →
      (momentum_round_trip st dt).vel.data i c n =
        st.vel.data i c n - dt * (st.gp.data i c n + st.gp0.data i c n) / st.ro.data i c 0) ∧
    (∀ (fuel : Nat) (nstep : Int) (prev_dt time stop_time : ℚ),
      (Advance ext (fuel + 1) st 0 nstep 0 dt prev_dt time stop_time).toBool = true) := by
  refine ⟨?_, ?_, ?_, ?_⟩
  · simp only [momentum_round_trip]
  · simp only [momentum_round_trip]
  · intro i c n hn hc hne
    interval_cases n <;>
      simp [momentum_round_trip, velocities_to_momenta, momenta_to_velocities,
        MultiFab.Multiply, MultiFab.Divide, MultiFab.Saxpy, inComps, hc] <;>
      field_simp <;> ring
  · intro fuel nstep prev_dt time stop_time
    simp [Advance, Advance_loop, Advance_pass_unsteady, Except.toBool]

/-- Witness of the amended C11 at a cell of negative density. -/
theorem momentum_round_trip_no_density_check_witness :
    ((1 : Nat) < 3 ∧ exNegDensity.grids.covers exNegDensity.vel.ngrow 0 ⟨1, 0, 0⟩ = true ∧
      exNegDensity.ro.data 0 ⟨1, 0, 0⟩ 0 ≠ 0 ∧ exNegDensity.ro.data 0 ⟨1, 0, 0⟩ 0 < 0) ∧
    (momentum_round_trip exNegDensity (1 / 2)).vel.data 0 ⟨1, 0, 0⟩ 1 =
      exNegDensity.vel.data 0 ⟨1, 0, 0⟩ 1 -
        1 / 2 * (exNegDensity.gp.data 0 ⟨1, 0, 0⟩ 1 + exNegDensity.gp0.data 0 ⟨1, 0, 0⟩ 1) /
          exNegDensity.ro.data 0 ⟨1, 0, 0⟩ 0 :=
  ⟨⟨by decide, by decide, by decide!, by decide!⟩,
    (momentum_round_trip_no_density_check exCollab exNegDensity (1 / 2)).2.2.1 0 ⟨1, 0, 0⟩ 1
      (by decide) (by decide) (by decide!)⟩

/-- C12 at a failing input: on the example scalar, with distinct codes for
mass inflow (20) and no-slip wall (100), the ghost cell `(-1,0,0)` outside the
mass-inflow face keeps its value 4 although the tabulated boundary value
`p_bc_s[bcv]` is 10, and the ghost cell `(2,0,0)` outside the no-slip wall
keeps its value 7 although the tabulated value is 11. With a pressure inflow
on the low-x face the ghost cell does receive the value 5 of the first
interior cell, and the interior cells keep their values. -/
theorem set_scalar_bcs_mass_inflow_wall_unfilled :
    exBc.minf ≠ exBc.nsw ∧
    (exBc.bc_ilo 0 ⟨-1, 0, 0⟩ 0 = exBc.minf ∧
      select_p_bc_s exBc 0 (exBc.bc_ilo 0 ⟨-1, 0, 0⟩ 1) = 10 ∧
      exScal.data ⟨-1, 0, 0⟩ 0 = 4 ∧
      (set_scalar_bcs exBc 0 0 exScal 0 exDomain).data ⟨-1, 0, 0⟩ 0 = 4) ∧
    (exBc.bc_ihi 0 ⟨2, 0, 0⟩ 0 = exBc.nsw ∧
      select_p_bc_s exBc 0 (exBc.bc_ihi 0 ⟨2, 0, 0⟩ 1) = 11 ∧
      exScal.data ⟨2, 0, 0⟩ 0 = 7 ∧
      (set_scalar_bcs exBc 0 0 exScal 0 exDomain).data ⟨2, 0, 0⟩ 0 = 7) ∧
    (exBcPressure.bc_ilo 0 ⟨-1, 0, 0⟩ 0 = exBcPressure.pinf ∧
      exScal.data ⟨0, 0, 0⟩ 0 = 5 ∧
      (set_scalar_bcs exBcPressure 0 0 exScal 0 exDomain).data ⟨-1, 0, 0⟩ 0 = 5) ∧
    ((set_scalar_bcs exBc 0 0 exScal 0 exDomain).data ⟨0, 0, 0⟩ 0 = 5 ∧
      (set_scalar_bcs exBc 0 0 exScal 0 exDomain).data ⟨1, 0, 0⟩ 0 = 6) := by
  refine ⟨by decide, ⟨by decide, by decide!, by decide!, by decide!⟩,
    ⟨by decide, by decide!, by decide!, by decide!⟩,
    ⟨by decide, by decide!, by decide!⟩, ⟨by decide!, by decide!⟩⟩

end AmrWind
